import Mathlib

/-!
Shallow embedding of the multi-backend persistence layer of the IPL
Telegram bot (`src/db_manager.py`, class `DatabaseManager`, plus the
`/db_switch` admin handler in `src/bot.py`).

Conventions of the embedding:
* Python dicts keyed by strings become insertion-ordered association lists
  (`List (String × _)`), matching Python's dict iteration order.
* The external stores (MongoDB collections, Redis keyspaces) are part of
  the state of each connection (`DbConn.store`); whether an insert or a
  stats probe succeeds is environment data carried on the connection
  (`insertOk`, `probe`), since these outcomes are decided by the external
  server, not by the router code.
* `datetime.now()` results and the random Redis key suffix are passed in
  as a `Clock` record.
* Sizes (`size_mb`, `max_size_mb`) are rationals; `max_size_mb` is
  `Option Rat` where `none` models the `float("inf")` default of
  `db_config.get("max_size_mb", float("inf"))` (db_manager.py:344).
-/

namespace IPL

/-- Python scalar values that flow through the `user_id` / `group_id`
interface: Telegram ids are ints, stored ids are strings. -/
inductive PyScalar where
  | pint : Int → PyScalar
  | pstr : String → PyScalar
deriving DecidableEq, Repr

/-- Python `str()` on the scalars above. -/
def PyScalar.pyStr : PyScalar → String
  | .pint n => toString n
  | .pstr s => s

/-- Python truthiness, used by `if group_id:` (db_manager.py:365). -/
def PyScalar.truthy : PyScalar → Bool
  | .pint n => n != 0
  | .pstr s => s != ""

/-- The interaction document built by `store_interaction`
(db_manager.py:355-366).  `group_id` is `none` when the key is absent. -/
structure Interaction where
  user_id : PyScalar
  message : String
  response : String
  timestamp : String
  chat_type : String
  feedback : Option String
  group_id : Option String
deriving DecidableEq, Repr

/-- One entry of the `databases` list of the configuration
(db_manager.py:50-78).  `max_size_mb = none` models a missing key
(read back with default `float("inf")`, db_manager.py:344). -/
structure DbConfig where
  name : String
  dtype : String
  uri : String
  priority : Int
  collection : String
  max_size_mb : Option Rat
deriving DecidableEq, Repr

/-- The configuration document (`self.db_config`). -/
structure RouterConfig where
  databases : List DbConfig
  auto_failover : Bool
  learning_enabled : Bool
deriving DecidableEq, Repr

/-- One record of `self.db_stats` (db_manager.py:122-129). -/
structure DbStat where
  status : String
  size_mb : Rat
  document_count : Nat
  last_updated : String
  error_count : Nat
  last_error : Option String
deriving DecidableEq, Repr

/-- One Redis key/value pair written by `_store_in_database`
(db_manager.py:404-413): the key is the full string
`interaction:{user_id}:{timestamp}:{random_suffix}`. -/
structure RedisEntry where
  key : String
  doc : Interaction
deriving DecidableEq, Repr

/-- Contents of the external store behind one connection. -/
inductive StoreData where
  | mongoDocs : List Interaction → StoreData
  | redisEntries : List RedisEntry → StoreData
deriving DecidableEq, Repr

/-- One value of `self.db_connections` (db_manager.py:188-194, 229-233)
together with the environment's behaviour for that backend: the store's
current contents, whether an insert succeeds, and the stats-probe answer
(`collStats` / `info("memory")`), `none` meaning the probe raises. -/
structure DbConn where
  name : String
  dtype : String
  config : DbConfig
  store : StoreData
  insertOk : Bool
  probe : Option (Rat × Nat)
deriving DecidableEq, Repr

/-- The mutable state of a `DatabaseManager` after construction
(db_manager.py:23-43), plus the per-user fallback files under
`data/interactions/<user_id>.json`. -/
structure DbManager where
  db_config : RouterConfig
  db_connections : List DbConn
  active_db : Option String
  fallback_to_file : Bool
  db_stats : List (String × DbStat)
  files : List (String × List Interaction)
deriving DecidableEq, Repr

/-- The `datetime.now()` readings and the random suffix taken during one
`store_interaction` call: `iso` is `isoformat()` (db_manager.py:359),
`key` is `strftime("%Y%m%d%H%M%S")` (:405), `rand` the random digit
suffix (:406). -/
structure Clock where
  iso : String
  key : String
  rand : String
deriving DecidableEq, Repr

/-! ### Association-list helpers (Python dict semantics) -/

/-- `m[k]` as an option (keys are unique, as in a Python dict). -/
def alookup : List (String × α) → String → Option α
  | [], _ => none
  | p :: rest, k => if p.1 == k then some p.2 else alookup rest k

/-- `m[k] = v`: replace in place if the key exists (keeping its position,
as Python dicts do), else append. -/
def aset : List (String × α) → String → α → List (String × α)
  | [], k, v => [(k, v)]
  | p :: rest, k, v => if p.1 == k then (k, v) :: rest else p :: aset rest k v

/-! ### String comparison

Python compares strings lexicographically by code point; the boolean
functions below implement that order directly on the character list of a
`String` (they are kernel-computable, unlike `String.ltb`). -/

/-- Lexicographic `a <= b` on code points. -/
def charsLe : List Char → List Char → Bool
  | [], _ => true
  | _ :: _, [] => false
  | a :: as, b :: bs =>
    if a.toNat < b.toNat then true
    else if b.toNat < a.toNat then false
    else charsLe as bs

/-- Lexicographic `a < b` on code points. -/
def charsLt : List Char → List Char → Bool
  | [], [] => false
  | [], _ :: _ => true
  | _ :: _, [] => false
  | a :: as, b :: bs =>
    if a.toNat < b.toNat then true
    else if b.toNat < a.toNat then false
    else charsLt as bs

/-- Does the list start with the given first list? -/
def charsStart : List Char → List Char → Bool
  | [], _ => true
  | _ :: _, [] => false
  | a :: as, b :: bs => a == b && charsStart as bs

/-- Python `a <= b` on strings. -/
def strLe (a b : String) : Bool := charsLe a.data b.data

/-- Python `a < b` on strings. -/
def strLt (a b : String) : Bool := charsLt a.data b.data

/-- Python `s.startswith(pre)` / glob `pre*` matching. -/
def strStartsWith (s pre : String) : Bool := charsStart pre.data s.data

/-! ### Stable sorting (Python `sorted` / `list.sort` are stable) -/

/-- Insert `x` before the first element `y` with `le x y`. -/
def insertLe (le : α → α → Bool) (x : α) : List α → List α
  | [] => [x]
  | y :: ys => if le x y then x :: y :: ys else y :: insertLe le x ys

/-- Stable insertion sort: elements that compare equal keep their
original relative order, as Python's sort guarantees. -/
def sortLe (le : α → α → Bool) : List α → List α
  | [] => []
  | x :: xs => insertLe le x (sortLe le xs)

/-- Comparison for `interactions.sort(key=lambda x: x.get("timestamp",
""), reverse=True)` (db_manager.py:547): descending by timestamp string,
stable. -/
def tsDescLe (a b : Interaction) : Bool := strLe b.timestamp a.timestamp

def sortTsDesc (l : List Interaction) : List Interaction := sortLe tsDescLe l

/-- Comparison for `sorted(self.db_config["databases"], key=lambda x:
x["priority"])` (db_manager.py:310). -/
def prioLe (a b : DbConfig) : Bool := decide (a.priority ≤ b.priority)

/-- Python `l[-n:]` for `n > 0`. -/
def takeLast (n : Nat) (l : List α) : List α := l.drop (l.length - n)

/-! ### State accessors -/

/-- `self.db_connections[name]` as an option (`name in
self.db_connections` iff the result is `some`). -/
def findConn (s : DbManager) (name : String) : Option DbConn :=
  s.db_connections.find? (fun c => c.name == name)

/-- `self.db_stats[name]`.  `load_db_stats` creates an entry with status
`"unknown"` for every configured backend (db_manager.py:120-129), so
after construction the lookup always hits; the default mirrors that
initial record. -/
def statOf (s : DbManager) (name : String) : DbStat :=
  (alookup s.db_stats name).getD ⟨"unknown", 0, 0, "", 0, none⟩

def setStat (s : DbManager) (name : String) (st : DbStat) : DbManager :=
  { s with db_stats := aset s.db_stats name st }

def setConnStore (s : DbManager) (name : String) (st : StoreData) : DbManager :=
  { s with db_connections :=
      s.db_connections.map (fun c => if c.name == name then { c with store := st } else c) }

/-- Python truthiness of `self.active_db` (used at db_manager.py:369,
375, 381, 385, 470): a string is truthy iff non-empty. -/
def activeName (s : DbManager) : Option String :=
  match s.active_db with
  | some a => if a != "" then some a else none
  | none => none

/-! ### Health / availability -/

/-- `is_database_available` (db_manager.py:330-346). -/
def is_database_available (s : DbManager) (name : String) : Bool :=
  match findConn s name with
  | none => false
  | some conn =>
    if (statOf s name).status != "connected" then false
    else
      match conn.config.max_size_mb with
      | none => true
      | some m => decide ((statOf s name).size_mb < m)

/-- The loop of `set_active_database` (db_manager.py:312-323) over the
priority-sorted descriptor list: first connected and available backend. -/
def pickActive (s : DbManager) : List DbConfig → Option String
  | [] => none
  | c :: rest =>
    if (findConn s c.name).isNone then pickActive s rest
    else if is_database_available s c.name then some c.name
    else pickActive s rest

/-- `set_active_database` (db_manager.py:307-328).  Note that on success
the function returns without touching `fallback_to_file` (:321-323). -/
def set_active_database (s : DbManager) : DbManager :=
  match pickActive s (sortLe prioLe s.db_config.databases) with
  | some n => { s with active_db := some n }
  | none => { s with active_db := none, fallback_to_file := true }

/-- `update_mongodb_stats` (db_manager.py:243-273), post-construction
version (`self.db_stats` assigned).  `probe = none` models the
`collStats` command raising: the handler marks the backend `error`. -/
def update_mongodb_stats (s : DbManager) (name : String) (nowIso : String) : DbManager :=
  match findConn s name with
  | none => s
  | some conn =>
    if conn.dtype != "mongodb" then s
    else
      match conn.probe with
      | some (sz, cnt) =>
        let old := statOf s name
        setStat s name ⟨"connected", sz, cnt, nowIso, old.error_count, old.last_error⟩
      | none =>
        let old := statOf s name
        setStat s name ⟨"error", old.size_mb, old.document_count, nowIso,
                        old.error_count + 1, some "stats probe failed"⟩

/-- `update_redis_stats` (db_manager.py:275-305), same shape. -/
def update_redis_stats (s : DbManager) (name : String) (nowIso : String) : DbManager :=
  match findConn s name with
  | none => s
  | some conn =>
    if conn.dtype != "redis" then s
    else
      match conn.probe with
      | some (sz, cnt) =>
        let old := statOf s name
        setStat s name ⟨"connected", sz, cnt, nowIso, old.error_count, old.last_error⟩
      | none =>
        let old := statOf s name
        setStat s name ⟨"error", old.size_mb, old.document_count, nowIso,
                        old.error_count + 1, some "stats probe failed"⟩

/-! ### Writing -/

/-- The `except` branch of `_store_in_database` (db_manager.py:421-429):
mark the backend `error`, bump `error_count`, set `last_error`. -/
def markWriteError (s : DbManager) (name : String) (nowIso : String) : DbManager :=
  let old := statOf s name
  setStat s name ⟨"error", old.size_mb, old.document_count, nowIso,
                  old.error_count + 1, some "insert failed"⟩

/-- The Redis key `interaction:{user_id}:{timestamp}:{random_suffix}`
(db_manager.py:407). -/
def redisKeyOf (uid : String) (clk : Clock) : String :=
  "interaction:" ++ uid ++ ":" ++ clk.key ++ ":" ++ clk.rand

/-- `_store_in_database` (db_manager.py:388-429).  Returns the `success`
flag and the new state.  A failed insert is absorbed by the function's
own `except` handler (:421-429), so post-construction the function never
raises to its caller.  Redis `SET` overwrites an existing key; the
`EXPIRE` call (TTL bookkeeping) is outside the model. -/
def store_in_database (s : DbManager) (clk : Clock) (name : String) (doc : Interaction) :
    Bool × DbManager :=
  match findConn s name with
  | none => (false, s)
  | some conn =>
    if conn.dtype == "mongodb" then
      if conn.insertOk then
        let s1 := setConnStore s name
          (match conn.store with
           | .mongoDocs ds => .mongoDocs (ds ++ [doc])
           | st => st)
        (true, update_mongodb_stats s1 name clk.iso)
      else (false, markWriteError s name clk.iso)
    else if conn.dtype == "redis" then
      if conn.insertOk then
        let key := redisKeyOf doc.user_id.pyStr clk
        let s1 := setConnStore s name
          (match conn.store with
           | .redisEntries es =>
             .redisEntries ((es.filter (fun e => e.key != key)) ++ [⟨key, doc⟩])
           | st => st)
        (true, update_redis_stats s1 name clk.iso)
      else (false, markWriteError s name clk.iso)
    else (false, s)

/-- `_store_in_file` (db_manager.py:431-464): append to the per-user
JSON file, truncating to the last 100 entries.  The file-write itself is
assumed to succeed (a failing `open` only logs). -/
def store_in_file (s : DbManager) (doc : Interaction) : DbManager :=
  let uid := doc.user_id.pyStr
  let existing := (alookup s.files uid).getD []
  let l := existing ++ [doc]
  let l := if l.length > 100 then takeLast 100 l else l
  { s with files := aset s.files uid l }

/-- `current_priority` of `_failover_to_next_database`
(db_manager.py:468-474): `float("inf")` is `none`; the loop takes the
first configured entry whose name equals the active one. -/
def priorityOfActive (s : DbManager) : Option Int :=
  match activeName s with
  | some a => (s.db_config.databases.find? (fun c => c.name == a)).map (fun c => c.priority)
  | none => none

/-- `priority <= current_priority` with `none` as plus infinity
(db_manager.py:485). -/
def leCur (p : Int) (cur : Option Int) : Bool :=
  match cur with
  | none => true
  | some c => decide (p ≤ c)

/-- `priority < next_priority` with `none` as plus infinity
(db_manager.py:493). -/
def ltNext (p : Int) (next : Option Int) : Bool :=
  match next with
  | none => true
  | some c => decide (p < c)

/-- The candidate loop of `_failover_to_next_database`
(db_manager.py:480-495), folding `(next_db, next_priority)`. -/
def failoverScan (s : DbManager) (cur : Option Int) :
    List DbConfig → Option String × Option Int → Option String × Option Int
  | [], acc => acc
  | c :: rest, acc =>
    if leCur c.priority cur then failoverScan s cur rest acc
    else if (findConn s c.name).isNone then failoverScan s cur rest acc
    else if is_database_available s c.name && ltNext c.priority acc.2 then
      failoverScan s cur rest (some c.name, some c.priority)
    else failoverScan s cur rest acc

/-- `_failover_to_next_database` (db_manager.py:466-503).  Note that on
success only `active_db` is reassigned, `fallback_to_file` is untouched
(:497-499). -/
def failover_to_next_database (s : DbManager) : DbManager :=
  let cur := priorityOfActive s
  match (failoverScan s cur s.db_config.databases (none, none)).1 with
  | some n => { s with active_db := some n }
  | none => { s with active_db := none, fallback_to_file := true }

/-- The document built at db_manager.py:355-366. -/
def mkInteraction (clk : Clock) (user_id : PyScalar) (message response chat_type : String)
    (group_id : Option PyScalar) (feedback : Option String) : Interaction :=
  { user_id := .pstr user_id.pyStr
    message := message
    response := response
    timestamp := clk.iso
    chat_type := chat_type
    feedback := feedback
    group_id :=
      match group_id with
      | some g => if g.truthy then some g.pyStr else none
      | none => none }

/-- The write phase of `store_interaction` (db_manager.py:368-382): try
the active backend, and on `success = False` with `auto_failover` run
`_failover_to_next_database` and retry once on the new selection.  The
outer `except` (:377-382) is unreachable post-construction because
`_store_in_database` absorbs its own exceptions (:421-429) and, with
`self.db_stats` assigned, its bookkeeping cannot raise; only the
`success = False` path (:372-376) is live. -/
def store_attempt (s : DbManager) (clk : Clock) (doc : Interaction) : DbManager :=
  match activeName s, s.fallback_to_file with
  | some a, false =>
    let res := store_in_database s clk a doc
    if !res.1 && s.db_config.auto_failover then
      let sF := failover_to_next_database res.2
      match activeName sF with
      | some a2 => (store_in_database sF clk a2 doc).2
      | none => sF
    else res.2
  | _, _ => s

/-- `store_interaction` (db_manager.py:348-386): skip when learning is
disabled, build the document, run the write phase, and fall back to the
per-user file exactly when afterwards `fallback_to_file` is set or
`active_db` is falsy (:385). -/
def store_interaction (s : DbManager) (clk : Clock) (user_id : PyScalar)
    (message response chat_type : String)
    (group_id : Option PyScalar) (feedback : Option String) : DbManager :=
  if !s.db_config.learning_enabled then s
  else
    let doc := mkInteraction clk user_id message response chat_type group_id feedback
    let s2 := store_attempt s clk doc
    if s2.fallback_to_file || (activeName s2).isNone then store_in_file s2 doc else s2

/-! ### Reading -/

/-- The glob pattern `interaction:{user_id}:*` (db_manager.py:526)
matches exactly the keys starting with this prefix. -/
def redisPattern (uid : String) : String := "interaction:" ++ uid ++ ":"

/-- `keys.sort(reverse=True)` (db_manager.py:530): descending by key
string. -/
def keyDescLe (a b : RedisEntry) : Bool := strLe b.key a.key

/-- The per-backend branch of `get_user_interactions`
(db_manager.py:513-537): MongoDB filters on `user_id`, sorts by
timestamp descending and limits; Redis lists the keys matching the
pattern, sorts them descending, takes `limit` and fetches each value. -/
def connQuery (conn : DbConn) (uid : String) (limit : Nat) : List Interaction :=
  if conn.dtype == "mongodb" then
    match conn.store with
    | .mongoDocs ds =>
      (sortTsDesc (ds.filter (fun d => d.user_id == PyScalar.pstr uid))).take limit
    | _ => []
  else if conn.dtype == "redis" then
    match conn.store with
    | .redisEntries es =>
      let keys := es.filter (fun e => strStartsWith e.key (redisPattern uid))
      ((sortLe keyDescLe keys).take limit).map (fun e => e.doc)
    | _ => []
  else []

/-- `_get_interactions_from_file` (db_manager.py:550-564): returns
`interactions[-limit:]` of the user's file.  For `limit = 0` Python's
`l[-0:]` is the whole list. -/
def get_interactions_from_file (s : DbManager) (user_id : PyScalar) (limit : Nat) :
    List Interaction :=
  let uid := user_id.pyStr
  match alookup s.files uid with
  | some l => if limit == 0 then l else takeLast limit l
  | none => []

/-- The fan-out loop of `get_user_interactions` (db_manager.py:511-539)
over every connection, in dict (insertion) order. -/
def fanOut (s : DbManager) (uid : String) (limit : Nat) : List Interaction :=
  s.db_connections.foldl (fun acc conn => acc ++ connQuery conn uid limit) []

/-- `get_user_interactions` (db_manager.py:505-548).  The file fallback
is consulted only when the backends produced no records or fewer than
`limit` (:542-544); the merge is then sorted by timestamp descending and
truncated. -/
def get_user_interactions (s : DbManager) (user_id : PyScalar) (limit : Nat) :
    List Interaction :=
  let uid := user_id.pyStr
  let interactions := fanOut s uid limit
  let interactions :=
    if interactions.isEmpty || interactions.length < limit then
      interactions ++ get_interactions_from_file s (.pstr uid) limit
    else interactions
  (sortTsDesc interactions).take limit

/-! ### Stats refresh and the admin switch -/

/-- One step of the stats-refresh loop of `get_database_stats`
(db_manager.py:612-617). -/
def statsStep (nowIso : String) (st : DbManager) (conn : DbConn) : DbManager :=
  if conn.dtype == "mongodb" then update_mongodb_stats st conn.name nowIso
  else if conn.dtype == "redis" then update_redis_stats st conn.name nowIso
  else st

/-- `get_database_stats` (db_manager.py:609-619): re-probe every
connection, in order. -/
def get_database_stats (s : DbManager) (nowIso : String) : DbManager :=
  s.db_connections.foldl (statsStep nowIso) s

/-- The state-mutating core of `db_switch_handler` (bot.py:551-584):
refresh stats, reject unknown names, and if `name` is connected set it
active and clear the file-fallback flag (bot.py:579-581). -/
def db_switch (s : DbManager) (name : String) (nowIso : String) : DbManager :=
  let s1 := get_database_stats s nowIso
  if (alookup s1.db_stats name).isNone then s1
  else if (findConn s1 name).isSome then
    { s1 with active_db := some name, fallback_to_file := false }
  else s1

/-! ### Construction (`__init__`, db_manager.py:23-43)

`__init__` runs `initialize_databases()` (line 37) and
`set_active_database()` (line 40) *before* assigning `self.db_stats`
(line 43).  Reads of `self.db_stats` during those two calls therefore
raise `AttributeError`.  The construction model below threads that
absent attribute explicitly. -/

inductive PyErr where
  | attributeError
deriving DecidableEq, Repr

/-- Behaviour of the external servers during construction. -/
structure ConnectEnv where
  connectOk : String → Bool
  probeInit : String → Option (Rat × Nat)
  insertOkOf : String → Bool

/-- A read of the attribute `self.db_stats`: `none` models the attribute
not yet assigned (before db_manager.py:43), which raises
`AttributeError`. -/
def readStatsAttr : Option (List (String × DbStat)) → Except PyErr (List (String × DbStat))
  | none => .error .attributeError
  | some m => .ok m

/-- `update_mongodb_stats` / `update_redis_stats` as executed during
`__init__` (called from db_manager.py:197 and :236): whether the stats
probe succeeds or raises, the function dereferences `self.db_stats` —
in its `try` block (:257-263 / :289-295) on success, in its `except`
handler (:269 / :301) on failure — and the attribute is still absent. -/
def initUpdateStats (probeOk : Bool) : Except PyErr Unit :=
  if probeOk then
    match readStatsAttr none with
    | .error e => .error e
    | .ok _ => .ok ()
  else
    match readStatsAttr none with
    | .error e => .error e
    | .ok _ => .ok ()

/-- One iteration of the `initialize_databases` loop
(db_manager.py:145-167) for one descriptor, during `__init__`:

* empty URI: skipped (:151-153);
* unsupported type: a warning only (:160-161);
* mongodb/redis with the ping failing (:185 / :226):
  `initialize_mongodb` / `initialize_redis` re-raise (:202 / :241) and
  the handler at :164 dereferences the absent `self.db_stats`, so the
  `AttributeError` escapes;
* mongodb/redis with the ping succeeding: the connection is stored
  (:188 / :229), then the stats update dereferences the absent
  `self.db_stats` (see `initUpdateStats`); the error is re-raised by
  `initialize_mongodb` / `initialize_redis` and the handler at :164
  dereferences `self.db_stats` again, so the `AttributeError` escapes. -/
def initAttemptBackend (env : ConnectEnv) (conns : List DbConn) (c : DbConfig) :
    Except PyErr (List DbConn) :=
  if c.uri == "" then .ok conns
  else if c.dtype == "mongodb" || c.dtype == "redis" then
    if env.connectOk c.name then
      let conns' := conns ++ [⟨c.name, c.dtype, c,
        (if c.dtype == "mongodb" then .mongoDocs [] else .redisEntries []),
        env.insertOkOf c.name, env.probeInit c.name⟩]
      match initUpdateStats ((env.probeInit c.name).isSome) with
      | .error e => .error e
      | .ok _ => .ok conns'
    else
      match readStatsAttr none with
      | .error e => .error e
      | .ok _ => .ok conns
  else .ok conns

/-- The fresh stats map built by `load_db_stats` when no stats file
exists (db_manager.py:120-131). -/
def initStats (cfg : RouterConfig) (nowIso : String) : List (String × DbStat) :=
  cfg.databases.map (fun c => (c.name, ⟨"unknown", 0, 0, nowIso, 0, none⟩))

/-- `DatabaseManager.__init__` (db_manager.py:23-43): attempt every
configured backend, then `set_active_database()`, then assign
`self.db_stats`.  Whenever the loop reaches `set_active_database` no
connection was retained, so that call never reads `self.db_stats`
(is_database_available is only consulted for connected names,
db_manager.py:316-320). -/
def initManager (cfg : RouterConfig) (env : ConnectEnv) (nowIso : String) :
    Except PyErr DbManager :=
  match cfg.databases.foldlM (initAttemptBackend env) [] with
  | .error e => .error e
  | .ok conns =>
    let st0 : DbManager :=
      { db_config := cfg, db_connections := conns, active_db := none
        fallback_to_file := false, db_stats := [], files := [] }
    let st1 := set_active_database st0
    .ok { st1 with db_stats := initStats cfg nowIso }

/-! ### Observation helpers used by the theorems -/

/-- The documents held by a connection's external store. -/
def docsOf (c : DbConn) : List Interaction :=
  match c.store with
  | .mongoDocs ds => ds
  | .redisEntries es => es.map (fun e => e.doc)

/-- Whether `doc` is durably stored anywhere: in some configured
backend's store or in some fallback file. -/
def storedAnywhere (s : DbManager) (doc : Interaction) : Bool :=
  s.db_connections.any (fun c => (docsOf c).contains doc) ||
    s.files.any (fun p => p.2.contains doc)

/-! ### Concrete fixtures -/

def cfgA : DbConfig := ⟨"A", "mongodb", "mongodb://a", 1, "user_interactions", some 500⟩
def cfgB : DbConfig := ⟨"B", "mongodb", "mongodb://b", 2, "user_interactions", some 500⟩

def statConn0 : DbStat := ⟨"connected", 0, 0, "t0", 0, none⟩

def clk0 : Clock := ⟨"2025-01-01T00:00:00", "20250101000000", "123456"⟩

/-- Backend `A` and `B` both connected and under their size limits, both
rejecting inserts. -/
def connAFail : DbConn := ⟨"A", "mongodb", cfgA, .mongoDocs [], false, some (0, 0)⟩
def connBFail : DbConn := ⟨"B", "mongodb", cfgB, .mongoDocs [], false, some (0, 0)⟩
def connAOk : DbConn := ⟨"A", "mongodb", cfgA, .mongoDocs [], true, some (0, 0)⟩

/-- State for C1: active backend `A`, failover target `B`, both writes
fail; learning and auto-failover on. -/
def cex1State : DbManager :=
  ⟨⟨[cfgA, cfgB], true, true⟩, [connAFail, connBFail], some "A", false,
   [("A", statConn0), ("B", statConn0)], []⟩

def cex1Doc : Interaction := mkInteraction clk0 (.pint 7) "hello" "hi" "private" none none

/-- State for C4: `A` (priority 1) connected, available and accepting
writes; `B` (priority 2) active but rejecting writes. -/
def cex4State : DbManager :=
  ⟨⟨[cfgA, cfgB], true, true⟩, [connAOk, connBFail], some "B", false,
   [("A", statConn0), ("B", statConn0)], []⟩

def cex4After : DbManager :=
  store_interaction cex4State clk0 (.pint 7) "hello" "hi" "private" none none

def dOld : Interaction := ⟨.pstr "7", "old", "r1", "2024-01-01T00:00:00", "private", none, none⟩
def dNew : Interaction := ⟨.pstr "7", "new", "r2", "2025-06-01T00:00:00", "private", none, none⟩

def connM6 : DbConn := ⟨"A", "mongodb", cfgA, .mongoDocs [dOld], true, some (0, 0)⟩

/-- State for C6: one connected backend holding an old record for user
`"7"`, and a newer record sitting in that user's fallback file. -/
def cex6State : DbManager :=
  ⟨⟨[cfgA], true, true⟩, [connM6], some "A", false, [("A", statConn0)], [("7", [dNew])]⟩

/-- State for C7: file-fallback mode (`active_db = None`), but a
connected backend (over its limit, hence not active) still holds an old
record for user `"7"`. -/
def cex7State : DbManager :=
  ⟨⟨[cfgA], true, true⟩, [connM6], none, true, [("A", statConn0)], []⟩

def cex7After : DbManager :=
  store_interaction cex7State clk0 (.pint 7) "newmsg" "newresp" "private" none none

def cfg2 : RouterConfig :=
  ⟨[⟨"primary_mongodb", "mongodb", "mongodb://localhost:27017/iplbot", 1,
     "user_interactions", some 500⟩], true, true⟩

/-- Environment for C2: the single configured backend is unreachable. -/
def env2 : ConnectEnv := ⟨fun _ => false, fun _ => none, fun _ => true⟩

/-- Environment for C5: the single configured backend is reachable,
empty, and well under its size limit. -/
def env5 : ConnectEnv := ⟨fun _ => true, fun _ => some (0, 0), fun _ => true⟩

/-- The invariant of C3: the router is in file-fallback mode exactly
when no backend is active. -/
def Inv (s : DbManager) : Prop := s.fallback_to_file = true ↔ s.active_db = none

/-- States reachable after construction: construction ends in
`set_active_database` run on a state whose `fallback_to_file` flag is
still the `False` set at db_manager.py:31, followed by any sequence of
the state-mutating operations (recording, the admin switch, the stats
refresh, and failover). -/
inductive Reach : DbManager → Prop where
  | init : ∀ pre : DbManager, pre.fallback_to_file = false → Reach (set_active_database pre)
  | store : ∀ (s : DbManager) (clk : Clock) (uid : PyScalar) (msg resp ct : String)
      (gid : Option PyScalar) (fb : Option String), Reach s →
      Reach (store_interaction s clk uid msg resp ct gid fb)
  | switch : ∀ (s : DbManager) (name nowIso : String), Reach s →
      Reach (db_switch s name nowIso)
  | stats : ∀ (s : DbManager) (nowIso : String), Reach s →
      Reach (get_database_stats s nowIso)
  | failAct : ∀ s : DbManager, Reach s → Reach (failover_to_next_database s)

/-- A failover candidate (db_manager.py:480-495): a configured backend
with priority strictly greater than the failed backend's priority `pa`,
currently connected and available. -/
def candB (s : DbManager) (pa : Int) (c : DbConfig) : Bool :=
  !(leCur c.priority (some pa)) && (findConn s c.name).isSome && is_database_available s c.name

/-- Witness state for C8: backend `A` connected but marked `error`. -/
def w8State : DbManager :=
  ⟨⟨[cfgA], true, true⟩, [connAOk], some "A", false,
   [("A", ⟨"error", 0, 0, "t0", 1, some "boom"⟩)], []⟩

/-- Witness pre-state for C3. -/
def pre0 : DbManager := ⟨⟨[], true, true⟩, [], none, false, [], []⟩

/-- Witness docs for C9. -/
def w9d1 : Interaction := ⟨.pstr "9", "m1", "r1", "t1", "private", none, none⟩
def w9d2 : Interaction := ⟨.pstr "9", "m2", "r2", "t2", "private", none, none⟩

/-- Witness state for C7: one healthy, empty, connected MongoDB backend
that is active. -/
def w7State : DbManager :=
  ⟨⟨[cfgA], true, true⟩, [connAOk], some "A", false, [("A", statConn0)], []⟩

/-! ### String-order lemmas -/

theorem charsLe_refl : ∀ a, charsLe a a = true := by
  intro a
  induction a with
  | nil => rfl
  | cons x xs ih => simp [charsLe, ih]

theorem charsLe_of_not_charsLe : ∀ a b, charsLe a b = false → charsLe b a = true := by
  intro a
  induction a with
  | nil => intro b h; cases h
  | cons x xs ih =>
    intro b h
    cases b with
    | nil => rfl
    | cons y ys =>
      unfold charsLe at h ⊢
      rcases Nat.lt_trichotomy x.toNat y.toNat with hc | hc | hc
      · simp [hc] at h
      · simp [hc, Nat.lt_irrefl] at h ⊢
        exact ih ys h
      · simp [hc, Nat.lt_asymm hc] at h ⊢

theorem charsLe_trans : ∀ a b c, charsLe a b = true → charsLe b c = true → charsLe a c = true := by
  intro a
  induction a with
  | nil => intro b c _ _; rfl
  | cons x xs ih =>
    intro b c h1 h2
    cases b with
    | nil => cases h1
    | cons y ys =>
      cases c with
      | nil => cases h2
      | cons z zs =>
        unfold charsLe at h1 h2 ⊢
        rcases Nat.lt_trichotomy x.toNat z.toNat with hc | hc | hc
        · simp [hc]
        · simp [hc, Nat.lt_irrefl]
          rcases Nat.lt_trichotomy x.toNat y.toNat with hxy | hxy | hxy
          · rcases Nat.lt_trichotomy y.toNat z.toNat with hyz | hyz | hyz
            · omega
            · omega
            · simp [Nat.lt_asymm hyz, hyz] at h2
          · rcases Nat.lt_trichotomy y.toNat z.toNat with hyz | hyz | hyz
            · omega
            · simp [hxy, Nat.lt_irrefl] at h1
              simp [hyz, Nat.lt_irrefl] at h2
              exact ih ys zs h1 h2
            · simp [Nat.lt_asymm hyz, hyz] at h2
          · simp [Nat.lt_asymm hxy, hxy] at h1
        · rcases Nat.lt_trichotomy x.toNat y.toNat with hxy | hxy | hxy
          · rcases Nat.lt_trichotomy y.toNat z.toNat with hyz | hyz | hyz
            · omega
            · omega
            · simp [Nat.lt_asymm hyz, hyz] at h2
          · rcases Nat.lt_trichotomy y.toNat z.toNat with hyz | hyz | hyz
            · omega
            · omega
            · simp [Nat.lt_asymm hyz, hyz] at h2
          · simp [Nat.lt_asymm hxy, hxy] at h1

theorem charsLe_of_charsLt : ∀ a b, charsLt a b = true → charsLe a b = true := by
  intro a
  induction a with
  | nil => intro b _; rfl
  | cons x xs ih =>
    intro b h
    cases b with
    | nil => cases h
    | cons y ys =>
      unfold charsLt at h
      unfold charsLe
      rcases Nat.lt_trichotomy x.toNat y.toNat with hc | hc | hc
      · simp [hc]
      · simp [hc, Nat.lt_irrefl] at h ⊢
        exact ih ys h
      · simp [Nat.lt_asymm hc, hc] at h

theorem charsLe_false_of_charsLt : ∀ a b, charsLt a b = true → charsLe b a = false := by
  intro a
  induction a with
  | nil => intro b h
           cases b with
           | nil => cases h
           | cons y ys => rfl
  | cons x xs ih =>
    intro b h
    cases b with
    | nil => cases h
    | cons y ys =>
      unfold charsLt at h
      unfold charsLe
      rcases Nat.lt_trichotomy x.toNat y.toNat with hc | hc | hc
      · simp [Nat.lt_asymm hc, hc]
      · simp [hc, Nat.lt_irrefl] at h ⊢
        exact ih ys h
      · simp [Nat.lt_asymm hc, hc] at h

theorem strLe_refl (a : String) : strLe a a = true := charsLe_refl _

theorem strLe_of_not_strLe {a b : String} (h : strLe a b = false) : strLe b a = true :=
  charsLe_of_not_charsLe _ _ h

theorem strLe_trans {a b c : String} (h1 : strLe a b = true) (h2 : strLe b c = true) :
    strLe a c = true := charsLe_trans _ _ _ h1 h2

theorem strLe_of_strLt {a b : String} (h : strLt a b = true) : strLe a b = true :=
  charsLe_of_charsLt _ _ h

theorem strLe_false_of_strLt {a b : String} (h : strLt a b = true) : strLe b a = false :=
  charsLe_false_of_charsLt _ _ h

theorem tsDescLe_refl (a : Interaction) : tsDescLe a a = true := strLe_refl _

theorem tsDescLe_trans : ∀ a b c : Interaction,
    tsDescLe a b = true → tsDescLe b c = true → tsDescLe a c = true :=
  fun _ _ _ h1 h2 => strLe_trans h2 h1

theorem tsDescLe_of_not : ∀ a b : Interaction, tsDescLe a b = false → tsDescLe b a = true :=
  fun _ _ h => strLe_of_not_strLe h

/-! ### Stable-sort lemmas -/

theorem mem_insertLe (le : α → α → Bool) (x : α) (l : List α) (a : α) :
    a ∈ insertLe le x l ↔ a = x ∨ a ∈ l := by
  induction l with
  | nil => simp [insertLe]
  | cons y ys ih =>
    unfold insertLe
    split
    · simp [List.mem_cons]
    · simp only [List.mem_cons, ih]
      tauto

theorem mem_sortLe (le : α → α → Bool) (l : List α) (a : α) :
    a ∈ sortLe le l ↔ a ∈ l := by
  induction l with
  | nil => simp [sortLe]
  | cons x xs ih => simp [sortLe, mem_insertLe, ih, List.mem_cons]

theorem pairwise_insertLe (le : α → α → Bool)
    (htrans : ∀ a b c, le a b = true → le b c = true → le a c = true)
    (hconn : ∀ a b, le a b = false → le b a = true)
    (x : α) (l : List α) (h : l.Pairwise (fun a b => le a b = true)) :
    (insertLe le x l).Pairwise (fun a b => le a b = true) := by
  induction l with
  | nil => simp [insertLe]
  | cons y ys ih =>
    rcases List.pairwise_cons.mp h with ⟨hy, hys⟩
    unfold insertLe
    split
    · rename_i hxy
      refine List.pairwise_cons.mpr ⟨?_, h⟩
      intro z hz
      rcases List.mem_cons.mp hz with rfl | hz
      · exact hxy
      · exact htrans _ _ _ hxy (hy z hz)
    · rename_i hxy
      have hxy' : le x y = false := by revert hxy; cases le x y <;> simp
      refine List.pairwise_cons.mpr ⟨?_, ih hys⟩
      intro z hz
      rcases (mem_insertLe le x ys z).mp hz with rfl | hz
      · exact hconn _ _ hxy'
      · exact hy z hz

theorem pairwise_sortLe (le : α → α → Bool)
    (htrans : ∀ a b c, le a b = true → le b c = true → le a c = true)
    (hconn : ∀ a b, le a b = false → le b a = true) (l : List α) :
    (sortLe le l).Pairwise (fun a b => le a b = true) := by
  induction l with
  | nil => simp [sortLe]
  | cons x xs ih => exact pairwise_insertLe le htrans hconn x _ ih

theorem insertLe_cons_of_not (le : α → α → Bool) (x m : α) (t : List α)
    (h : le x m = false) : insertLe le x (m :: t) = m :: insertLe le x t := by
  simp [insertLe, h]

theorem sortLe_append_single (le : α → α → Bool) (l : List α) (m : α)
    (h : ∀ x ∈ l, le x m = false) : sortLe le (l ++ [m]) = m :: sortLe le l := by
  induction l with
  | nil => rfl
  | cons x xs ih =>
    have hx : le x m = false := h x (by simp)
    show insertLe le x (sortLe le (xs ++ [m])) = m :: insertLe le x (sortLe le xs)
    rw [ih (fun y hy => h y (by simp [hy])), insertLe_cons_of_not le x m _ hx]

theorem sortLe_strict_max (le : α → α → Bool) (hrefl : ∀ x, le x x = true)
    (l : List α) (m : α) (hm : m ∈ l)
    (hmax : ∀ x ∈ l, x ≠ m → le x m = false ∧ le m x = true) :
    ∃ t, sortLe le l = m :: t := by
  induction l with
  | nil => cases hm
  | cons y ys ih =>
    by_cases hys : m ∈ ys
    · obtain ⟨t, ht⟩ := ih hys (fun x hx hne => hmax x (by simp [hx]) hne)
      by_cases hy : y = m
      · subst hy
        exact ⟨y :: t, by simp [sortLe, ht, insertLe, hrefl y]⟩
      · have hle : le y m = false := (hmax y (by simp) hy).1
        exact ⟨insertLe le y t, by
          simp only [sortLe, ht]
          exact insertLe_cons_of_not le y m t hle⟩
    · have hy : y = m := by
        rcases List.mem_cons.mp hm with h | h
        · exact h.symm
        · exact absurd h hys
      subst hy
      cases hl' : sortLe le ys with
      | nil => exact ⟨[], by simp [sortLe, hl', insertLe]⟩
      | cons z zs =>
        have hz : z ∈ ys := (mem_sortLe le ys z).mp (by rw [hl']; exact List.mem_cons_self z zs)
        have hzm : z ≠ y := fun h => hys (h ▸ hz)
        have hle : le y z = true := (hmax z (by simp [hz]) hzm).2
        exact ⟨z :: zs, by simp [sortLe, hl', insertLe, hle]⟩

/-! ### Association-list lemmas -/

theorem alookup_aset_self (m : List (String × α)) (k : String) (v : α) :
    alookup (aset m k v) k = some v := by
  induction m with
  | nil => simp [aset, alookup]
  | cons p rest ih =>
    by_cases hp : p.1 = k
    · simp [aset, alookup, hp]
    · simp [aset, alookup, hp, ih]

theorem alookup_aset_ne (m : List (String × α)) (k k' : String) (v : α) (h : k' ≠ k) :
    alookup (aset m k v) k' = alookup m k' := by
  induction m with
  | nil => simp [aset, alookup, Ne.symm h]
  | cons p rest ih =>
    by_cases hp : p.1 = k
    · simp [aset, alookup, hp, Ne.symm h]
    · simp [aset, alookup, hp, ih]

/-! ### takeLast lemmas -/

theorem takeLast_of_length_le {l : List α} {n : Nat} (h : l.length ≤ n) :
    takeLast n l = l := by
  unfold takeLast
  rw [Nat.sub_eq_zero_of_le h, List.drop_zero]

theorem length_takeLast_le (n : Nat) (l : List α) : (takeLast n l).length ≤ n := by
  unfold takeLast
  rw [List.length_drop]
  omega

theorem takeLast_takeLast_append (n : Nat) (x r : List α) :
    takeLast n (takeLast n x ++ r) = takeLast n (x ++ r) := by
  unfold takeLast
  rw [List.drop_append_eq_append_drop, List.drop_append_eq_append_drop, List.drop_drop]
  simp only [List.length_append, List.length_drop]
  have h1 : (x.length - n) + ((x.length - (x.length - n) + r.length) - n) =
      x.length + r.length - n := by omega
  have h2 : ((x.length - (x.length - n) + r.length) - n) - (x.length - (x.length - n)) =
      (x.length + r.length - n) - x.length := by omega
  rw [h1, h2]

theorem trunc_eq_takeLast (l : List α) :
    (if l.length > 100 then takeLast 100 l else l) = takeLast 100 l := by
  split
  · rfl
  · rw [takeLast_of_length_le (by omega)]

theorem mem_takeLast_append_single {l : List α} {d : α} {n : Nat} (h : 1 ≤ n) :
    d ∈ takeLast n (l ++ [d]) := by
  unfold takeLast
  rw [List.drop_append_eq_append_drop]
  refine List.mem_append.mpr (Or.inr ?_)
  simp only [List.length_append, List.length_cons, List.length_nil]
  have : (l.length + 1 - n) - l.length = 0 := by omega
  rw [this, List.drop_zero]
  exact List.mem_singleton.mpr rfl

/-! ### Field-preservation lemmas -/

@[simp] theorem setStat_active (s : DbManager) (n : String) (st : DbStat) :
    (setStat s n st).active_db = s.active_db := rfl

@[simp] theorem setStat_fallback (s : DbManager) (n : String) (st : DbStat) :
    (setStat s n st).fallback_to_file = s.fallback_to_file := rfl

@[simp] theorem setStat_conns (s : DbManager) (n : String) (st : DbStat) :
    (setStat s n st).db_connections = s.db_connections := rfl

@[simp] theorem setStat_config (s : DbManager) (n : String) (st : DbStat) :
    (setStat s n st).db_config = s.db_config := rfl

@[simp] theorem setStat_files (s : DbManager) (n : String) (st : DbStat) :
    (setStat s n st).files = s.files := rfl

@[simp] theorem setConnStore_active (s : DbManager) (n : String) (st : StoreData) :
    (setConnStore s n st).active_db = s.active_db := rfl

@[simp] theorem setConnStore_fallback (s : DbManager) (n : String) (st : StoreData) :
    (setConnStore s n st).fallback_to_file = s.fallback_to_file := rfl

@[simp] theorem setConnStore_config (s : DbManager) (n : String) (st : StoreData) :
    (setConnStore s n st).db_config = s.db_config := rfl

@[simp] theorem setConnStore_files (s : DbManager) (n : String) (st : StoreData) :
    (setConnStore s n st).files = s.files := rfl

@[simp] theorem setConnStore_stats (s : DbManager) (n : String) (st : StoreData) :
    (setConnStore s n st).db_stats = s.db_stats := rfl

@[simp] theorem markWriteError_active (s : DbManager) (n t : String) :
    (markWriteError s n t).active_db = s.active_db := rfl

@[simp] theorem markWriteError_fallback (s : DbManager) (n t : String) :
    (markWriteError s n t).fallback_to_file = s.fallback_to_file := rfl

@[simp] theorem markWriteError_conns (s : DbManager) (n t : String) :
    (markWriteError s n t).db_connections = s.db_connections := rfl

@[simp] theorem markWriteError_config (s : DbManager) (n t : String) :
    (markWriteError s n t).db_config = s.db_config := rfl

@[simp] theorem markWriteError_files (s : DbManager) (n t : String) :
    (markWriteError s n t).files = s.files := rfl

@[simp] theorem update_mongodb_stats_active (s : DbManager) (n t : String) :
    (update_mongodb_stats s n t).active_db = s.active_db := by
  unfold update_mongodb_stats
  repeat' split
  all_goals rfl

@[simp] theorem update_mongodb_stats_fallback (s : DbManager) (n t : String) :
    (update_mongodb_stats s n t).fallback_to_file = s.fallback_to_file := by
  unfold update_mongodb_stats
  repeat' split
  all_goals rfl

@[simp] theorem update_mongodb_stats_conns (s : DbManager) (n t : String) :
    (update_mongodb_stats s n t).db_connections = s.db_connections := by
  unfold update_mongodb_stats
  repeat' split
  all_goals rfl

@[simp] theorem update_mongodb_stats_config (s : DbManager) (n t : String) :
    (update_mongodb_stats s n t).db_config = s.db_config := by
  unfold update_mongodb_stats
  repeat' split
  all_goals rfl

@[simp] theorem update_mongodb_stats_files (s : DbManager) (n t : String) :
    (update_mongodb_stats s n t).files = s.files := by
  unfold update_mongodb_stats
  repeat' split
  all_goals rfl

@[simp] theorem update_redis_stats_active (s : DbManager) (n t : String) :
    (update_redis_stats s n t).active_db = s.active_db := by
  unfold update_redis_stats
  repeat' split
  all_goals rfl

@[simp] theorem update_redis_stats_fallback (s : DbManager) (n t : String) :
    (update_redis_stats s n t).fallback_to_file = s.fallback_to_file := by
  unfold update_redis_stats
  repeat' split
  all_goals rfl

@[simp] theorem update_redis_stats_conns (s : DbManager) (n t : String) :
    (update_redis_stats s n t).db_connections = s.db_connections := by
  unfold update_redis_stats
  repeat' split
  all_goals rfl

@[simp] theorem update_redis_stats_config (s : DbManager) (n t : String) :
    (update_redis_stats s n t).db_config = s.db_config := by
  unfold update_redis_stats
  repeat' split
  all_goals rfl

@[simp] theorem update_redis_stats_files (s : DbManager) (n t : String) :
    (update_redis_stats s n t).files = s.files := by
  unfold update_redis_stats
  repeat' split
  all_goals rfl

@[simp] theorem store_in_database_active (s : DbManager) (clk : Clock) (n : String)
    (doc : Interaction) : ((store_in_database s clk n doc).2).active_db = s.active_db := by
  unfold store_in_database
  repeat' split
  all_goals simp

@[simp] theorem store_in_database_fallback (s : DbManager) (clk : Clock) (n : String)
    (doc : Interaction) :
    ((store_in_database s clk n doc).2).fallback_to_file = s.fallback_to_file := by
  unfold store_in_database
  repeat' split
  all_goals simp

@[simp] theorem store_in_database_config (s : DbManager) (clk : Clock) (n : String)
    (doc : Interaction) : ((store_in_database s clk n doc).2).db_config = s.db_config := by
  unfold store_in_database
  repeat' split
  all_goals simp

@[simp] theorem store_in_database_files (s : DbManager) (clk : Clock) (n : String)
    (doc : Interaction) : ((store_in_database s clk n doc).2).files = s.files := by
  unfold store_in_database
  repeat' split
  all_goals simp

@[simp] theorem store_in_file_active (s : DbManager) (doc : Interaction) :
    (store_in_file s doc).active_db = s.active_db := rfl

@[simp] theorem store_in_file_fallback (s : DbManager) (doc : Interaction) :
    (store_in_file s doc).fallback_to_file = s.fallback_to_file := rfl

@[simp] theorem store_in_file_conns (s : DbManager) (doc : Interaction) :
    (store_in_file s doc).db_connections = s.db_connections := rfl

@[simp] theorem store_in_file_config (s : DbManager) (doc : Interaction) :
    (store_in_file s doc).db_config = s.db_config := rfl

@[simp] theorem store_in_file_stats (s : DbManager) (doc : Interaction) :
    (store_in_file s doc).db_stats = s.db_stats := rfl

@[simp] theorem statsStep_active (t : String) (st : DbManager) (c : DbConn) :
    (statsStep t st c).active_db = st.active_db := by
  unfold statsStep
  repeat' split
  all_goals simp

@[simp] theorem statsStep_fallback (t : String) (st : DbManager) (c : DbConn) :
    (statsStep t st c).fallback_to_file = st.fallback_to_file := by
  unfold statsStep
  repeat' split
  all_goals simp

theorem foldl_statsStep_active : ∀ (l : List DbConn) (st : DbManager) (t : String),
    (l.foldl (statsStep t) st).active_db = st.active_db := by
  intro l
  induction l with
  | nil => intro st t; rfl
  | cons c rest ih =>
    intro st t
    rw [List.foldl_cons, ih, statsStep_active]

theorem foldl_statsStep_fallback : ∀ (l : List DbConn) (st : DbManager) (t : String),
    (l.foldl (statsStep t) st).fallback_to_file = st.fallback_to_file := by
  intro l
  induction l with
  | nil => intro st t; rfl
  | cons c rest ih =>
    intro st t
    rw [List.foldl_cons, ih, statsStep_fallback]

@[simp] theorem get_database_stats_active (s : DbManager) (t : String) :
    (get_database_stats s t).active_db = s.active_db := foldl_statsStep_active _ _ _

@[simp] theorem get_database_stats_fallback (s : DbManager) (t : String) :
    (get_database_stats s t).fallback_to_file = s.fallback_to_file :=
  foldl_statsStep_fallback _ _ _

/-! ### Claim theorems -/

/-- **C1** (code bug).  The spec guarantees every recorded entry is
durable in at least one store.  In `cex1State` (learning enabled,
auto-failover enabled, active backend `A` rejecting the write, failover
target `B` rejecting the retry) `store_interaction` returns with the
entry stored nowhere: after the failed retry `active_db = "B"` and
`fallback_to_file = False`, so the guard at db_manager.py:385 skips the
file write and the record is silently dropped. -/
theorem c1_record_dropped_on_double_write_failure :
    cex1State.db_config.learning_enabled = true ∧
    storedAnywhere
      (store_interaction cex1State clk0 (.pint 7) "hello" "hi" "private" none none)
      cex1Doc = false := by decide

/-- Sanity check of the construction model: with the configured URI
empty, the backend is skipped (db_manager.py:151-153), `__init__`
completes, and the router ends in file-fallback mode with no
connections (db_manager.py:325-328) and fresh `"unknown"` stats
(db_manager.py:120-129). -/
theorem initManager_empty_uri_ok :
    initManager ⟨[⟨"x", "mongodb", "", 1, "c", some 500⟩], true, true⟩
      ⟨fun _ => false, fun _ => none, fun _ => true⟩ "t0" =
    .ok { db_config := ⟨[⟨"x", "mongodb", "", 1, "c", some 500⟩], true, true⟩,
          db_connections := [], active_db := none, fallback_to_file := true,
          db_stats := [("x", ⟨"unknown", 0, 0, "t0", 0, none⟩)], files := [] } := by
  rfl

/-- **C2** (code bug).  The claim says a backend whose connect attempt
raises is marked `Error` and construction completes.  In the code,
`self.db_stats` is assigned only at db_manager.py:43, after
`initialize_databases()`, so the failure handler at :164 itself raises
`AttributeError` and construction fails. -/
theorem c2_init_raises_on_connect_failure :
    initManager cfg2 env2 "t0" = .error .attributeError := by rfl

/-- **C5** (code bug).  The claim says that with one reachable backend
under its size limit, construction ends with that backend active and
`fallback_to_file = False`.  In the code the successful connect path
calls `update_mongodb_stats` (db_manager.py:197), which dereferences the
still-unassigned `self.db_stats` (:257, then :269 in its handler), so
construction raises `AttributeError` instead. -/
theorem c5_init_raises_with_reachable_backend :
    initManager cfg2 env5 "t0" = .error .attributeError := by rfl

/-- **C4** (counterexample).  The claim says that after a write failure
the router re-selects "exactly as selectActiveBackend does", i.e. the
lowest-priority available backend with only the errored one excluded.
In `cex4State` the active backend `B` (priority 2) fails while `A`
(priority 1) is connected, available and accepting writes; the claim
predicts a retry on `A`, but `_failover_to_next_database` skips every
backend with `priority <= current_priority` (db_manager.py:485), finds
no candidate and drops to the file fallback — even though
`set_active_database` run on the resulting state does select `A`. -/
theorem c4_failover_skips_lower_priority_backend :
    cex4After.active_db = none ∧
    cex4After.fallback_to_file = true ∧
    cex4After.db_connections.all (fun c => (docsOf c).isEmpty) = true ∧
    alookup cex4After.files "7" = some [cex1Doc] ∧
    is_database_available cex4After "A" = true ∧
    (set_active_database cex4After).active_db = some "A" := by decide

/-- **C6** (counterexample).  The claim says `get_user_interactions`
always additionally reads the per-user file fallback.  In `cex6State`
the backends already return `limit` records, so the guard at
db_manager.py:542 skips the file read and the strictly newer record in
the file is not returned. -/
theorem c6_file_fallback_not_read_when_backends_fill_limit :
    get_user_interactions cex6State (.pstr "7") 1 = [dOld] ∧
    get_interactions_from_file cex6State (.pstr "7") 1 = [dNew] ∧
    strLt dOld.timestamp dNew.timestamp = true := by decide

/-- **C7** (counterexample).  In `cex7State` the router is in
file-fallback mode while a connected (but over-limit) backend still
holds an old record for the user.  `record` appends the new entry to the
user's file, but the immediate `query(user_id, 1)` returns the old
backend record: the backend fan-out already produced `limit` records, so
the file is never read (db_manager.py:542) and the round trip fails. -/
theorem c7_roundtrip_fails_in_fallback_mode :
    alookup cex7After.files "7" =
      some [mkInteraction clk0 (.pint 7) "newmsg" "newresp" "private" none none] ∧
    get_user_interactions cex7After (.pint 7) 1 = [dOld] ∧
    dOld.message ≠ "newmsg" := by decide

/-- **C10** (confirmed).  `store_interaction` normalizes the user id
with `str()` when building the document (db_manager.py:356), so every
stored record carries a string `user_id`; and both `store_interaction`
and `get_user_interactions` coerce their argument with `str()`
(db_manager.py:356, :507, :552), so storing or querying under a scalar
`v` behaves exactly as under `str(v)`. -/
theorem c10_user_id_normalized_to_string (s : DbManager) (clk : Clock) (v : PyScalar)
    (msg resp ct : String) (gid : Option PyScalar) (fb : Option String) (limit : Nat) :
    (mkInteraction clk v msg resp ct gid fb).user_id = .pstr v.pyStr ∧
    get_user_interactions s v limit = get_user_interactions s (.pstr v.pyStr) limit ∧
    store_interaction s clk v msg resp ct gid fb =
      store_interaction s clk (.pstr v.pyStr) msg resp ct gid fb := by
  exact ⟨rfl, rfl, rfl⟩

/-- **C9** (confirmed).  Any sequence of appends for one user through
`_store_in_file`: after every write the user's file holds exactly the
last (at most) 100 records of the full append history, in append order
(oldest dropped first, db_manager.py:452-457). -/
theorem c9_file_truncation_keeps_last_100 (s : DbManager) (u : String)
    (docs : List Interaction)
    (hu : ∀ d ∈ docs, d.user_id.pyStr = u)
    (hlen : ((alookup s.files u).getD []).length ≤ 100) :
    (alookup (docs.foldl store_in_file s).files u).getD [] =
      takeLast 100 (((alookup s.files u).getD []) ++ docs) ∧
    ((alookup (docs.foldl store_in_file s).files u).getD []).length ≤ 100 := by
  induction docs generalizing s with
  | nil =>
    simp only [List.foldl_nil, List.append_nil]
    exact ⟨(takeLast_of_length_le hlen).symm, hlen⟩
  | cons d rest ih =>
    have hd : d.user_id.pyStr = u := hu d (by simp)
    have hrest : ∀ x ∈ rest, x.user_id.pyStr = u := fun x hx => hu x (by simp [hx])
    have hstep : (alookup (store_in_file s d).files u).getD [] =
        takeLast 100 (((alookup s.files u).getD []) ++ [d]) := by
      simp only [store_in_file, hd]
      rw [alookup_aset_self]
      simp only [Option.getD_some]
      exact trunc_eq_takeLast _
    rw [List.foldl_cons]
    obtain ⟨h1, h2⟩ := ih (store_in_file s d) hrest
      (by rw [hstep]; exact length_takeLast_le _ _)
    refine ⟨?_, h2⟩
    rw [h1, hstep, takeLast_takeLast_append]
    congr 1
    simp

/-- Witness for C9 at a concrete two-append run from an empty state. -/
theorem c9_witness :
    ((∀ d ∈ [w9d1, w9d2], d.user_id.pyStr = "9") ∧
      ((alookup pre0.files "9").getD []).length ≤ 100) ∧
    ((alookup ([w9d1, w9d2].foldl store_in_file pre0).files "9").getD [] =
        takeLast 100 (((alookup pre0.files "9").getD []) ++ [w9d1, w9d2]) ∧
      ((alookup ([w9d1, w9d2].foldl store_in_file pre0).files "9").getD []).length ≤ 100) :=
  ⟨⟨by decide, by decide⟩,
   c9_file_truncation_keeps_last_100 pre0 "9" [w9d1, w9d2] (by decide) (by decide)⟩

/-! ### Invariant lemmas for C3 -/

theorem Inv_of_fields {s t : DbManager} (ha : t.active_db = s.active_db)
    (hf : t.fallback_to_file = s.fallback_to_file) (hs : Inv s) : Inv t := by
  unfold Inv at *
  rw [ha, hf]
  exact hs

/-- `set_active_database` establishes the invariant from any state whose
fallback flag is still clear (as it is when the constructor calls it,
db_manager.py:31,40). -/
theorem set_active_database_Inv (pre : DbManager) (h : pre.fallback_to_file = false) :
    Inv (set_active_database pre) := by
  unfold set_active_database Inv
  cases hp : pickActive pre (sortLe prioLe pre.db_config.databases) with
  | some n => simp [h]
  | none => simp

theorem failoverScan_cur_none (s : DbManager) :
    ∀ (l : List DbConfig) (acc : Option String × Option Int),
      failoverScan s none l acc = acc := by
  intro l
  induction l with
  | nil => intro acc; rfl
  | cons c rest ih => intro acc; exact ih acc

theorem failover_Inv (s : DbManager) (hs : Inv s) :
    Inv (failover_to_next_database s) := by
  simp only [failover_to_next_database]
  by_cases hf : s.fallback_to_file = true
  · have ha : s.active_db = none := hs.mp hf
    have hcur : priorityOfActive s = none := by
      unfold priorityOfActive activeName
      rw [ha]
    rw [hcur, failoverScan_cur_none]
    simp [Inv]
  · have hf' : s.fallback_to_file = false := by
      cases hfb : s.fallback_to_file
      · rfl
      · exact absurd hfb hf
    cases hsc : (failoverScan s (priorityOfActive s) s.db_config.databases (none, none)).1 with
    | some n =>
      unfold Inv
      simp [hf']
    | none =>
      unfold Inv
      simp

theorem store_attempt_Inv (s : DbManager) (clk : Clock) (doc : Interaction)
    (hs : Inv s) : Inv (store_attempt s clk doc) := by
  simp only [store_attempt]
  split
  · rename_i a ha hf
    by_cases hcond :
        (!(store_in_database s clk a doc).1 && s.db_config.auto_failover) = true
    · rw [if_pos hcond]
      have h1 : Inv (store_in_database s clk a doc).2 :=
        Inv_of_fields (store_in_database_active ..) (store_in_database_fallback ..) hs
      have h2 : Inv (failover_to_next_database (store_in_database s clk a doc).2) :=
        failover_Inv _ h1
      cases hA2 : activeName (failover_to_next_database (store_in_database s clk a doc).2) with
      | some a2 =>
        exact Inv_of_fields (store_in_database_active ..) (store_in_database_fallback ..) h2
      | none => exact h2
    · rw [if_neg hcond]
      exact Inv_of_fields (store_in_database_active ..) (store_in_database_fallback ..) hs
  · exact hs

theorem store_interaction_Inv (s : DbManager) (clk : Clock) (uid : PyScalar)
    (msg resp ct : String) (gid : Option PyScalar) (fb : Option String) (hs : Inv s) :
    Inv (store_interaction s clk uid msg resp ct gid fb) := by
  simp only [store_interaction]
  split
  · exact hs
  · have h2 := store_attempt_Inv s clk
      (mkInteraction clk uid msg resp ct gid fb) hs
    split
    · exact Inv_of_fields (store_in_file_active ..) (store_in_file_fallback ..) h2
    · exact h2

theorem db_switch_Inv (s : DbManager) (name t : String) (hs : Inv s) :
    Inv (db_switch s name t) := by
  simp only [db_switch]
  have h1 : Inv (get_database_stats s t) :=
    Inv_of_fields (get_database_stats_active ..) (get_database_stats_fallback ..) hs
  split
  · exact h1
  · split
    · unfold Inv
      simp
    · exact h1

/-- **C3** (confirmed).  In every state reachable after construction the
router is in file-fallback mode iff no backend is active, and the
invariant is preserved by recording (including write failover), by the
admin switch, by the stats refresh, and by failover itself;
`set_active_database`, as called at the end of construction on a state
with the fallback flag still clear, establishes it. -/
theorem c3_fallback_iff_no_active (s : DbManager) (h : Reach s) : Inv s := by
  induction h with
  | init pre hpre => exact set_active_database_Inv pre hpre
  | store s clk uid msg resp ct gid fb _ ih =>
    exact store_interaction_Inv s clk uid msg resp ct gid fb ih
  | switch s name nowIso _ ih => exact db_switch_Inv s name nowIso ih
  | stats s nowIso _ ih =>
    exact Inv_of_fields (get_database_stats_active ..) (get_database_stats_fallback ..) ih
  | failAct s _ ih => exact failover_Inv s ih

/-- Witness for C3: the freshly constructed empty router. -/
theorem c3_witness : Inv (set_active_database pre0) :=
  c3_fallback_iff_no_active _ (Reach.init pre0 rfl)

/-! ### Selection lemmas for C8 -/

theorem pickActive_available (s : DbManager) :
    ∀ (l : List DbConfig) (n : String), pickActive s l = some n →
      is_database_available s n = true := by
  intro l
  induction l with
  | nil => intro n h; cases h
  | cons c rest ih =>
    intro n h
    unfold pickActive at h
    split at h
    · exact ih n h
    · split at h
      · rename_i havail
        cases h
        exact havail
      · exact ih n h

theorem failoverScan_available (s : DbManager) (cur : Option Int) :
    ∀ (l : List DbConfig) (acc : Option String × Option Int) (n : String),
      (failoverScan s cur l acc).1 = some n →
      acc.1 = some n ∨ is_database_available s n = true := by
  intro l
  induction l with
  | nil => intro acc n h; exact Or.inl h
  | cons c rest ih =>
    intro acc n h
    unfold failoverScan at h
    split at h
    · exact ih acc n h
    · split at h
      · exact ih acc n h
      · split at h
        · rename_i hcond
          rcases ih _ n h with h' | h'
          · have hn : c.name = n := by simpa using h'
            subst hn
            have hc2 : is_database_available s c.name = true ∧
                ltNext c.priority acc.2 = true := by simpa using hcond
            exact Or.inr hc2.1
          · exact Or.inr h'
        · exact ih acc n h

/-- **C8** (confirmed).  A backend whose health status is not
`"connected"` (in particular one marked `"error"`) is never selected by
`set_active_database` nor by `_failover_to_next_database`: both gate on
`is_database_available`, which requires status `"connected"`
(db_manager.py:339); only a successful stats probe (ping/connect) resets
the status to `"connected"` (db_manager.py:258, :290). -/
theorem c8_error_backend_never_reselected (s : DbManager) (name : String)
    (h : (statOf s name).status ≠ "connected") :
    (set_active_database s).active_db ≠ some name ∧
    (failover_to_next_database s).active_db ≠ some name := by
  have havail : is_database_available s name = false := by
    unfold is_database_available
    cases hf : findConn s name with
    | none => rfl
    | some conn =>
      have hbne : ((statOf s name).status != "connected") = true := bne_iff_ne.mpr h
      simp [hbne]
  constructor
  · intro hc
    unfold set_active_database at hc
    cases hp : pickActive s (sortLe prioLe s.db_config.databases) with
    | none => rw [hp] at hc; simp at hc
    | some m =>
      rw [hp] at hc
      have hm : m = name := by simpa using hc
      subst hm
      rw [pickActive_available s _ m hp] at havail
      cases havail
  · intro hc
    simp only [failover_to_next_database] at hc
    cases hsc : (failoverScan s (priorityOfActive s) s.db_config.databases (none, none)).1 with
    | none => rw [hsc] at hc; simp at hc
    | some m =>
      rw [hsc] at hc
      have hm : m = name := by simpa using hc
      subst hm
      rcases failoverScan_available s _ _ _ m hsc with h' | h'
      · cases h'
      · rw [h'] at havail
        cases havail

/-- Witness for C8: backend `A` of `w8State` is marked `"error"` and is
selected by neither operation. -/
theorem c8_witness :
    (statOf w8State "A").status ≠ "connected" ∧
    ((set_active_database w8State).active_db ≠ some "A" ∧
      (failover_to_next_database w8State).active_db ≠ some "A") :=
  ⟨by decide, c8_error_backend_never_reselected w8State "A" (by decide)⟩

/-! ### Merge lemmas for C6 -/

theorem mem_foldl_append {β : Type} (f : β → List Interaction) :
    ∀ (l : List β) (acc : List Interaction) (d : Interaction),
      (d ∈ l.foldl (fun acc b => acc ++ f b) acc) ↔ d ∈ acc ∨ ∃ b ∈ l, d ∈ f b := by
  intro l
  induction l with
  | nil => simp
  | cons x xs ih =>
    intro acc d
    rw [List.foldl_cons, ih]
    simp only [List.mem_append, List.mem_cons]
    constructor
    · rintro (⟨h | h⟩ | ⟨b, hb, hd⟩)
      · exact Or.inl h
      · exact Or.inr ⟨x, Or.inl rfl, h⟩
      · exact Or.inr ⟨b, Or.inr hb, hd⟩
    · rintro (h | ⟨b, (rfl | hb), hd⟩)
      · exact Or.inl (Or.inl h)
      · exact Or.inl (Or.inr hd)
      · exact Or.inr ⟨b, hb, hd⟩

/-- **C6** (corrected / amended).  `get_user_interactions` fans out to
every connected backend, reads the per-user file fallback *only when the
fan-out produced no records or fewer than `limit`* (db_manager.py:542),
merges, sorts by timestamp descending (stably) and returns at most
`limit` records. -/
theorem c6_query_merge_properties (s : DbManager) (v : PyScalar) (limit : Nat) :
    (get_user_interactions s v limit).length ≤ limit ∧
    (get_user_interactions s v limit).Pairwise (fun a b => tsDescLe a b = true) ∧
    (∀ d ∈ get_user_interactions s v limit,
        d ∈ fanOut s v.pyStr limit ∨
        d ∈ get_interactions_from_file s (.pstr v.pyStr) limit) ∧
    ((fanOut s v.pyStr limit).isEmpty = false →
      ¬ (fanOut s v.pyStr limit).length < limit →
      ∀ d ∈ get_user_interactions s v limit, d ∈ fanOut s v.pyStr limit) := by
  simp only [get_user_interactions]
  refine ⟨List.length_take_le _ _, ?_, ?_, ?_⟩
  · exact List.Pairwise.sublist (List.take_sublist _ _)
      (pairwise_sortLe tsDescLe tsDescLe_trans tsDescLe_of_not _)
  · intro d hd
    have h1 := List.mem_of_mem_take hd
    rw [sortTsDesc, mem_sortLe] at h1
    split at h1
    · exact List.mem_append.mp h1
    · exact Or.inl h1
  · intro hne hlen d hd
    have h1 := List.mem_of_mem_take hd
    rw [sortTsDesc, mem_sortLe] at h1
    rw [if_neg (by simp [hne, hlen])] at h1
    exact h1

/-! ### Fan-out lemmas for C7 -/

theorem fanOut_mem (s : DbManager) (uid : String) (limit : Nat) (d : Interaction) :
    d ∈ fanOut s uid limit ↔ ∃ c ∈ s.db_connections, d ∈ connQuery c uid limit := by
  unfold fanOut
  rw [mem_foldl_append]
  simp

theorem connQuery_subset (conn : DbConn) (uid : String) (limit : Nat) (d : Interaction)
    (hd : d ∈ connQuery conn uid limit) : d ∈ docsOf conn := by
  unfold connQuery at hd
  unfold docsOf
  cases hst : conn.store with
  | mongoDocs ds =>
    simp only [hst] at hd ⊢
    split at hd
    · have h1 := List.mem_of_mem_take hd
      rw [sortTsDesc, mem_sortLe] at h1
      exact List.mem_of_mem_filter h1
    · split at hd
      · exact absurd hd (List.not_mem_nil d)
      · exact absurd hd (List.not_mem_nil d)
  | redisEntries es =>
    simp only [hst] at hd ⊢
    split at hd
    · exact absurd hd (List.not_mem_nil d)
    · split at hd
      · simp only [List.mem_map] at hd
        obtain ⟨e, he, hde⟩ := hd
        have h2 := List.mem_of_mem_take he
        rw [mem_sortLe] at h2
        have h3 := List.mem_of_mem_filter h2
        exact List.mem_map.mpr ⟨e, h3, hde⟩
      · exact absurd hd (List.not_mem_nil d)

/-- **C7** (corrected / amended).  The record/query round trip holds on
the normal path: when learning is on, the active backend is a connected
MongoDB backend whose insert succeeds, and the assigned timestamp is
strictly newer than every record already held by any connected backend,
then `query(user_id, 1)` immediately after `record` returns exactly the
stored document, equal in `message`, `response`, `user_id` and
`chat_type`. -/
theorem c7_roundtrip_after_backend_write (s : DbManager) (clk : Clock) (v : PyScalar)
    (msg resp : String) (a : String) (conn : DbConn) (ds : List Interaction)
    (hl : s.db_config.learning_enabled = true)
    (hact : s.active_db = some a) (hnea : a ≠ "")
    (hfb : s.fallback_to_file = false)
    (hc : findConn s a = some conn)
    (hm : conn.dtype = "mongodb")
    (hok : conn.insertOk = true)
    (hds : conn.store = .mongoDocs ds)
    (hfresh : ∀ c ∈ s.db_connections, ∀ d ∈ docsOf c, strLt d.timestamp clk.iso = true) :
    get_user_interactions (store_interaction s clk v msg resp "private" none none) v 1 =
      [mkInteraction clk v msg resp "private" none none] ∧
    (mkInteraction clk v msg resp "private" none none).message = msg ∧
    (mkInteraction clk v msg resp "private" none none).response = resp ∧
    (mkInteraction clk v msg resp "private" none none).user_id = .pstr v.pyStr ∧
    (mkInteraction clk v msg resp "private" none none).chat_type = "private" := by
  refine ⟨?_, rfl, rfl, rfl, rfl⟩
  have hdu : (mkInteraction clk v msg resp "private" none none).user_id = .pstr v.pyStr := rfl
  have hdt : (mkInteraction clk v msg resp "private" none none).timestamp = clk.iso := rfl
  generalize hdoc : mkInteraction clk v msg resp "private" none none = doc
  rw [hdoc] at hdu hdt
  -- the state after the write
  have hbne : (a != "") = true := bne_iff_ne.mpr hnea
  have hAct : activeName s = some a := by
    unfold activeName
    rw [hact]
    simp [hbne]
  have hmB : (conn.dtype == "mongodb") = true := beq_iff_eq.mpr hm
  have hsd : store_in_database s clk a doc =
      (true, update_mongodb_stats (setConnStore s a (.mongoDocs (ds ++ [doc]))) a clk.iso) := by
    simp only [store_in_database, hc, hmB, hok, hds]
    simp
  have hatt : store_attempt s clk doc =
      update_mongodb_stats (setConnStore s a (.mongoDocs (ds ++ [doc]))) a clk.iso := by
    simp only [store_attempt, hAct, hfb, hsd]
    simp
  have hS1a : (update_mongodb_stats (setConnStore s a (.mongoDocs (ds ++ [doc]))) a
      clk.iso).active_db = s.active_db := by simp
  have hS1f : (update_mongodb_stats (setConnStore s a (.mongoDocs (ds ++ [doc]))) a
      clk.iso).fallback_to_file = s.fallback_to_file := by simp
  have hS1A : activeName (update_mongodb_stats (setConnStore s a
      (.mongoDocs (ds ++ [doc]))) a clk.iso) = some a := by
    unfold activeName
    rw [hS1a, hact]
    simp [hbne]
  have hstore : store_interaction s clk v msg resp "private" none none =
      update_mongodb_stats (setConnStore s a (.mongoDocs (ds ++ [doc]))) a clk.iso := by
    simp only [store_interaction, hl, hdoc, hatt, Bool.not_true]
    rw [if_neg (by simp)]
    rw [if_neg (by simp [hS1f, hfb, hS1A])]
  rw [hstore]
  -- the connections of the post-write state
  have hconns : (update_mongodb_stats (setConnStore s a (.mongoDocs (ds ++ [doc]))) a
      clk.iso).db_connections =
      s.db_connections.map (fun c =>
        if c.name == a then { c with store := .mongoDocs (ds ++ [doc]) } else c) := by
    rw [update_mongodb_stats_conns]
    rfl
  have hc' : s.db_connections.find? (fun c => c.name == a) = some conn := hc
  have hmemconn : conn ∈ s.db_connections := List.mem_of_find?_eq_some hc'
  have hpconn : (conn.name == a) = true := by
    have h := List.find?_some hc'
    simpa using h
  -- the new document's backend query result
  have hzq : connQuery { conn with store := .mongoDocs (ds ++ [doc]) } v.pyStr 1 = [doc] := by
    unfold connQuery
    simp only [hmB]
    rw [if_pos trivial]
    have hpd : (doc.user_id == PyScalar.pstr v.pyStr) = true := by
      rw [hdu]
      exact beq_self_eq_true _
    have hfa : (ds ++ [doc]).filter (fun d => d.user_id == PyScalar.pstr v.pyStr) =
        ds.filter (fun d => d.user_id == PyScalar.pstr v.pyStr) ++ [doc] := by
      rw [List.filter_append]
      simp [hpd]
    rw [hfa, sortTsDesc,
      sortLe_append_single tsDescLe _ doc (fun x hx => by
        have hxds : x ∈ ds := List.mem_of_mem_filter hx
        have hxd : strLt x.timestamp clk.iso = true := by
          have := hfresh conn hmemconn x
          unfold docsOf at this
          rw [hds] at this
          exact this hxds
        unfold tsDescLe
        rw [hdt]
        exact strLe_false_of_strLt hxd)]
    simp
  -- membership of the new document in the fan-out
  have hdocfan : doc ∈ fanOut (update_mongodb_stats (setConnStore s a
      (.mongoDocs (ds ++ [doc]))) a clk.iso) v.pyStr 1 := by
    rw [fanOut_mem, hconns]
    refine ⟨{ conn with store := .mongoDocs (ds ++ [doc]) }, ?_, ?_⟩
    · refine List.mem_map.mpr ⟨conn, hmemconn, ?_⟩
      rw [if_pos hpconn]
    · rw [hzq]
      exact List.mem_singleton.mpr rfl
  -- every fan-out element is the new document or strictly older
  have hfanel : ∀ x ∈ fanOut (update_mongodb_stats (setConnStore s a
      (.mongoDocs (ds ++ [doc]))) a clk.iso) v.pyStr 1,
      x = doc ∨ strLt x.timestamp clk.iso = true := by
    intro x hx
    rw [fanOut_mem, hconns] at hx
    obtain ⟨c', hc', hxq⟩ := hx
    obtain ⟨c, hcmem, hceq⟩ := List.mem_map.mp hc'
    have hxdocs := connQuery_subset c' v.pyStr 1 x hxq
    by_cases hca : (c.name == a) = true
    · rw [if_pos hca] at hceq
      rw [← hceq] at hxdocs
      have : x ∈ ds ++ [doc] := by
        unfold docsOf at hxdocs
        exact hxdocs
      rcases List.mem_append.mp this with hxds | hxdoc
      · right
        have := hfresh conn hmemconn x
        unfold docsOf at this
        rw [hds] at this
        exact this hxds
      · left
        exact List.mem_singleton.mp hxdoc
    · rw [if_neg hca] at hceq
      rw [← hceq] at hxdocs
      right
      exact hfresh c hcmem x hxdocs
  -- the fan-out is non-empty, so the file fallback is skipped
  have hfanne : fanOut (update_mongodb_stats (setConnStore s a
      (.mongoDocs (ds ++ [doc]))) a clk.iso) v.pyStr 1 ≠ [] := by
    intro hnil
    rw [hnil] at hdocfan
    exact List.not_mem_nil doc hdocfan
  -- sort the merged pool: the new document is its strict maximum
  obtain ⟨t, ht⟩ := sortLe_strict_max tsDescLe tsDescLe_refl _ doc hdocfan
    (fun x hx hxne => by
      rcases hfanel x hx with h | h
      · exact absurd h hxne
      · constructor
        · unfold tsDescLe
          rw [hdt]
          exact strLe_false_of_strLt h
        · unfold tsDescLe
          rw [hdt]
          exact strLe_of_strLt h)
  have hlp : 0 < (fanOut (update_mongodb_stats (setConnStore s a
      (.mongoDocs (ds ++ [doc]))) a clk.iso) v.pyStr 1).length :=
    List.length_pos.mpr hfanne
  have hcondF : ((fanOut (update_mongodb_stats (setConnStore s a
        (.mongoDocs (ds ++ [doc]))) a clk.iso) v.pyStr 1).isEmpty ||
      decide ((fanOut (update_mongodb_stats (setConnStore s a
        (.mongoDocs (ds ++ [doc]))) a clk.iso) v.pyStr 1).length < 1)) = false := by
    have h1 := List.isEmpty_eq_false.mpr hfanne
    have h2 : decide ((fanOut (update_mongodb_stats (setConnStore s a
        (.mongoDocs (ds ++ [doc]))) a clk.iso) v.pyStr 1).length < 1) = false :=
      decide_eq_false_iff_not.mpr (by omega)
    rw [h1, h2]
    rfl
  simp only [get_user_interactions]
  rw [if_neg (by rw [hcondF]; exact Bool.false_ne_true)]
  simp only [sortTsDesc]
  rw [ht]
  simp

/-! ### Failover characterization lemmas for C4 -/

@[simp] theorem failover_conns (s : DbManager) :
    (failover_to_next_database s).db_connections = s.db_connections := by
  simp only [failover_to_next_database]
  split <;> rfl

@[simp] theorem failover_config (s : DbManager) :
    (failover_to_next_database s).db_config = s.db_config := by
  simp only [failover_to_next_database]
  split <;> rfl

@[simp] theorem failover_files (s : DbManager) :
    (failover_to_next_database s).files = s.files := by
  simp only [failover_to_next_database]
  split <;> rfl

@[simp] theorem failover_stats (s : DbManager) :
    (failover_to_next_database s).db_stats = s.db_stats := by
  simp only [failover_to_next_database]
  split <;> rfl

theorem statOf_eq_of_stats {t s : DbManager} (h : t.db_stats = s.db_stats) (m : String) :
    statOf t m = statOf s m := by
  unfold statOf
  rw [h]

theorem statOf_setStat_self (s : DbManager) (n : String) (st : DbStat) :
    statOf (setStat s n st) n = st := by
  unfold statOf setStat
  rw [alookup_aset_self]
  rfl

theorem statOf_setStat_ne (s : DbManager) (n m : String) (st : DbStat) (h : m ≠ n) :
    statOf (setStat s n st) m = statOf s m := by
  unfold statOf setStat
  rw [alookup_aset_ne _ _ _ _ h]

theorem statOf_markWriteError_self (s : DbManager) (n t : String) :
    statOf (markWriteError s n t) n =
      ⟨"error", (statOf s n).size_mb, (statOf s n).document_count, t,
       (statOf s n).error_count + 1, some "insert failed"⟩ := by
  simp only [markWriteError]
  exact statOf_setStat_self _ _ _

theorem statOf_markWriteError_ne (s : DbManager) (n m t : String) (h : m ≠ n) :
    statOf (markWriteError s n t) m = statOf s m := by
  simp only [markWriteError]
  exact statOf_setStat_ne _ _ _ _ h

theorem statOf_update_mongodb_ne (s : DbManager) (n m t : String) (h : m ≠ n) :
    statOf (update_mongodb_stats s n t) m = statOf s m := by
  simp only [update_mongodb_stats]
  split
  · rfl
  · split
    · rfl
    · split
      · exact statOf_setStat_ne _ _ _ _ h
      · exact statOf_setStat_ne _ _ _ _ h

theorem statOf_update_redis_ne (s : DbManager) (n m t : String) (h : m ≠ n) :
    statOf (update_redis_stats s n t) m = statOf s m := by
  simp only [update_redis_stats]
  split
  · rfl
  · split
    · rfl
    · split
      · exact statOf_setStat_ne _ _ _ _ h
      · exact statOf_setStat_ne _ _ _ _ h

theorem statOf_store_in_database_ne (s : DbManager) (clk : Clock) (n m : String)
    (doc : Interaction) (h : m ≠ n) :
    statOf ((store_in_database s clk n doc).2) m = statOf s m := by
  simp only [store_in_database]
  split
  · rfl
  · split
    · split
      · rw [statOf_update_mongodb_ne _ _ _ _ h]
        exact statOf_eq_of_stats (setConnStore_stats ..) m
      · exact statOf_markWriteError_ne _ _ _ _ h
    · split
      · split
        · rw [statOf_update_redis_ne _ _ _ _ h]
          exact statOf_eq_of_stats (setConnStore_stats ..) m
        · exact statOf_markWriteError_ne _ _ _ _ h
      · rfl

theorem failoverScan_skip_all (s : DbManager) (pa : Int) :
    ∀ (l : List DbConfig) (acc : Option String × Option Int),
      (∀ c ∈ l, candB s pa c = false) → failoverScan s (some pa) l acc = acc := by
  intro l
  induction l with
  | nil => intro acc _; rfl
  | cons c rest ih =>
    intro acc hall
    have hcc := hall c (by simp)
    unfold failoverScan
    by_cases h1 : leCur c.priority (some pa) = true
    · rw [if_pos h1]
      exact ih acc (fun x hx => hall x (by simp [hx]))
    · rw [if_neg h1]
      by_cases h2 : (findConn s c.name).isNone = true
      · rw [if_pos h2]
        exact ih acc (fun x hx => hall x (by simp [hx]))
      · rw [if_neg h2]
        have h1' : leCur c.priority (some pa) = false := by
          cases hlc : leCur c.priority (some pa)
          · rfl
          · exact absurd hlc h1
        have h2' : (findConn s c.name).isSome = true := by
          cases hfc : findConn s c.name with
          | none => rw [hfc] at h2; exact absurd rfl h2
          | some x => rfl
        have havail : is_database_available s c.name = false := by
          unfold candB at hcc
          simpa [h1', h2'] using hcc
        rw [if_neg (by simp [havail])]
        exact ih acc (fun x hx => hall x (by simp [hx]))

theorem failoverScan_cases (s : DbManager) (pa : Int) :
    ∀ (l : List DbConfig) (acc : Option String × Option Int),
      failoverScan s (some pa) l acc = acc ∨
      ∃ c, c ∈ l ∧ candB s pa c = true ∧
        failoverScan s (some pa) l acc = (some c.name, some c.priority) := by
  intro l
  induction l with
  | nil => intro acc; exact Or.inl rfl
  | cons c rest ih =>
    intro acc
    unfold failoverScan
    by_cases h1 : leCur c.priority (some pa) = true
    · rw [if_pos h1]
      rcases ih acc with h | ⟨c', hc', hcand, heq⟩
      · exact Or.inl h
      · exact Or.inr ⟨c', by simp [hc'], hcand, heq⟩
    · rw [if_neg h1]
      by_cases h2 : (findConn s c.name).isNone = true
      · rw [if_pos h2]
        rcases ih acc with h | ⟨c', hc', hcand, heq⟩
        · exact Or.inl h
        · exact Or.inr ⟨c', by simp [hc'], hcand, heq⟩
      · rw [if_neg h2]
        by_cases h3 : (is_database_available s c.name && ltNext c.priority acc.2) = true
        · rw [if_pos h3]
          have hparts : is_database_available s c.name = true ∧
              ltNext c.priority acc.2 = true := by simpa using h3
          have h1' : leCur c.priority (some pa) = false := by
            cases hlc : leCur c.priority (some pa)
            · rfl
            · exact absurd hlc h1
          have h2' : (findConn s c.name).isSome = true := by
            cases hfc : findConn s c.name with
            | none => rw [hfc] at h2; exact absurd rfl h2
            | some x => rfl
          have hcand : candB s pa c = true := by
            unfold candB
            simp [h1', h2', hparts.1]
          rcases ih (some c.name, some c.priority) with h | ⟨c', hc', hcand', heq⟩
          · exact Or.inr ⟨c, by simp, hcand, h⟩
          · exact Or.inr ⟨c', by simp [hc'], hcand', heq⟩
        · rw [if_neg h3]
          rcases ih acc with h | ⟨c', hc', hcand, heq⟩
          · exact Or.inl h
          · exact Or.inr ⟨c', by simp [hc'], hcand, heq⟩

theorem failoverScan_min (s : DbManager) (pa : Int) :
    ∀ (l : List DbConfig) (acc : Option String × Option Int),
      (∀ c ∈ l, candB s pa c = true →
        ∃ p, (failoverScan s (some pa) l acc).2 = some p ∧ p ≤ c.priority) ∧
      (∀ q, acc.2 = some q →
        ∃ p, (failoverScan s (some pa) l acc).2 = some p ∧ p ≤ q) := by
  intro l
  induction l with
  | nil =>
    intro acc
    exact ⟨fun c hc => absurd hc (List.not_mem_nil c),
           fun q hq => ⟨q, hq, le_refl q⟩⟩
  | cons c rest ih =>
    intro acc
    unfold failoverScan
    by_cases h1 : leCur c.priority (some pa) = true
    · rw [if_pos h1]
      refine ⟨?_, (ih acc).2⟩
      intro c' hc' hcand
      rcases List.mem_cons.mp hc' with rfl | hc'
      · exfalso
        unfold candB at hcand
        rw [h1] at hcand
        simp at hcand
      · exact (ih acc).1 c' hc' hcand
    · rw [if_neg h1]
      by_cases h2 : (findConn s c.name).isNone = true
      · rw [if_pos h2]
        refine ⟨?_, (ih acc).2⟩
        intro c' hc' hcand
        rcases List.mem_cons.mp hc' with rfl | hc'
        · exfalso
          have hfs : (findConn s c'.name).isSome = false := by
            cases hfc : findConn s c'.name with
            | none => rfl
            | some x => rw [hfc] at h2; exact absurd h2 (by simp)
          unfold candB at hcand
          rw [hfs] at hcand
          simp at hcand
        · exact (ih acc).1 c' hc' hcand
      · rw [if_neg h2]
        by_cases h3 : (is_database_available s c.name && ltNext c.priority acc.2) = true
        · rw [if_pos h3]
          have hparts : is_database_available s c.name = true ∧
              ltNext c.priority acc.2 = true := by simpa using h3
          refine ⟨?_, ?_⟩
          · intro c' hc' hcand
            rcases List.mem_cons.mp hc' with rfl | hc'
            · exact (ih (some c'.name, some c'.priority)).2 c'.priority rfl
            · exact (ih (some c.name, some c.priority)).1 c' hc' hcand
          · intro q hq
            have hlt : c.priority < q := by
              have hl2 := hparts.2
              unfold ltNext at hl2
              rw [hq] at hl2
              exact of_decide_eq_true hl2
            obtain ⟨p, hp, hple⟩ := (ih (some c.name, some c.priority)).2 c.priority rfl
            exact ⟨p, hp, le_trans hple (le_of_lt hlt)⟩
        · rw [if_neg h3]
          refine ⟨?_, (ih acc).2⟩
          intro c' hc' hcand
          rcases List.mem_cons.mp hc' with rfl | hc'
          · unfold candB at hcand
            simp only [Bool.and_eq_true] at hcand
            have hav : is_database_available s c'.name = true := hcand.2
            have hlf : ltNext c'.priority acc.2 = false := by
              cases hLT : ltNext c'.priority acc.2
              · rfl
              · exact absurd (by simp [hav, hLT]) h3
            cases hacc : acc.2 with
            | none =>
              exfalso
              unfold ltNext at hlf
              rw [hacc] at hlf
              cases hlf
            | some q0 =>
              have hq0 : ¬ c'.priority < q0 := by
                unfold ltNext at hlf
                rw [hacc] at hlf
                simpa using hlf
              obtain ⟨p, hp, hple⟩ := (ih acc).2 q0 hacc
              exact ⟨p, hp, le_trans hple (by omega)⟩
          · exact (ih acc).1 c' hc' hcand

/-- **C4** (corrected / amended).  On a write failure of the active
backend with `auto_failover` on, the router marks that backend `Error`
and re-selects via `_failover_to_next_database`, which — unlike
`set_active_database` — considers only backends with priority *strictly
greater* than the failed backend's (db_manager.py:485): it picks the
least-priority available such candidate and retries the write exactly
once on it, or, when no such candidate exists, switches to the file
fallback and appends the record there; connected available backends at
lower-or-equal priority are never consulted. -/
theorem c4_amended_failover_strictly_higher (s : DbManager) (clk : Clock) (v : PyScalar)
    (msg resp : String) (a : String) (conn : DbConn) (ca : DbConfig)
    (hl : s.db_config.learning_enabled = true)
    (hauto : s.db_config.auto_failover = true)
    (hact : s.active_db = some a) (hnea : a ≠ "")
    (hfb : s.fallback_to_file = false)
    (hc : findConn s a = some conn)
    (hdtm : conn.dtype = "mongodb")
    (hok : conn.insertOk = false)
    (hcfg : s.db_config.databases.find? (fun c => c.name == a) = some ca)
    (hnodup : (s.db_config.databases.map DbConfig.name).Nodup)
    (hnames : ∀ c ∈ s.db_config.databases, c.name ≠ "") :
    (statOf (store_interaction s clk v msg resp "private" none none) a).status = "error" ∧
    (statOf (store_interaction s clk v msg resp "private" none none) a).error_count =
      (statOf s a).error_count + 1 ∧
    ((∀ c ∈ s.db_config.databases,
        candB (markWriteError s a clk.iso) ca.priority c = false) →
      (store_interaction s clk v msg resp "private" none none).active_db = none ∧
      (store_interaction s clk v msg resp "private" none none).fallback_to_file = true ∧
      mkInteraction clk v msg resp "private" none none ∈
        (alookup (store_interaction s clk v msg resp "private" none none).files
          v.pyStr).getD []) ∧
    (∀ b ∈ s.db_config.databases,
      candB (markWriteError s a clk.iso) ca.priority b = true →
      ∃ b', b' ∈ s.db_config.databases ∧
        candB (markWriteError s a clk.iso) ca.priority b' = true ∧
        (store_interaction s clk v msg resp "private" none none).active_db = some b'.name ∧
        (store_interaction s clk v msg resp "private" none none).fallback_to_file = false ∧
        (store_interaction s clk v msg resp "private" none none).files = s.files ∧
        (∀ c ∈ s.db_config.databases,
          candB (markWriteError s a clk.iso) ca.priority c = true →
          b'.priority ≤ c.priority)) := by
  generalize hdoc : mkInteraction clk v msg resp "private" none none = doc
  have hdu : doc.user_id = .pstr v.pyStr := by rw [← hdoc]; rfl
  have hbne : (a != "") = true := bne_iff_ne.mpr hnea
  have hAct : activeName s = some a := by
    unfold activeName
    rw [hact]
    simp [hbne]
  have hmB : (conn.dtype == "mongodb") = true := beq_iff_eq.mpr hdtm
  have hsd : store_in_database s clk a doc = (false, markWriteError s a clk.iso) := by
    simp only [store_in_database, hc, hmB, hok]
    simp
  have hS1A : activeName (markWriteError s a clk.iso) = some a := by
    unfold activeName
    rw [markWriteError_active, hact]
    simp [hbne]
  have hpoa : priorityOfActive (markWriteError s a clk.iso) = some ca.priority := by
    simp only [priorityOfActive, hS1A, markWriteError_config]
    rw [hcfg]
    rfl
  have hca : ca ∈ s.db_config.databases := List.mem_of_find?_eq_some hcfg
  have hcaname : ca.name = a := by
    have h := List.find?_some hcfg
    simpa using h
  have hatt : store_attempt s clk doc =
      (match activeName (failover_to_next_database (markWriteError s a clk.iso)) with
       | some a2 =>
         (store_in_database (failover_to_next_database (markWriteError s a clk.iso))
           clk a2 doc).2
       | none => failover_to_next_database (markWriteError s a clk.iso)) := by
    simp only [store_attempt, hAct, hfb, hsd, hauto]
    simp
  have hS1stat : statOf (markWriteError s a clk.iso) a =
      ⟨"error", (statOf s a).size_mb, (statOf s a).document_count, clk.iso,
       (statOf s a).error_count + 1, some "insert failed"⟩ :=
    statOf_markWriteError_self s a clk.iso
  rcases failoverScan_cases (markWriteError s a clk.iso) ca.priority
      s.db_config.databases (none, none) with hscan | ⟨b0, hbm, hbcand, hscan⟩
  · -- no strictly-higher-priority candidate: file fallback
    have hmin := (failoverScan_min (markWriteError s a clk.iso) ca.priority
      s.db_config.databases (none, none)).1
    have hfail : failover_to_next_database (markWriteError s a clk.iso) =
        { markWriteError s a clk.iso with active_db := none, fallback_to_file := true } := by
      simp only [failover_to_next_database, hpoa, markWriteError_config]
      rw [hscan]
    have hAF : activeName (failover_to_next_database (markWriteError s a clk.iso)) = none := by
      rw [hfail]
      rfl
    have hsf : store_attempt s clk doc =
        failover_to_next_database (markWriteError s a clk.iso) := by
      rw [hatt, hAF]
    have hsi : store_interaction s clk v msg resp "private" none none =
        store_in_file (failover_to_next_database (markWriteError s a clk.iso)) doc := by
      simp only [store_interaction, hl, hdoc, hsf, Bool.not_true]
      rw [if_neg (by simp)]
      rw [if_pos (by simp [hfail])]
    rw [hsi]
    refine ⟨?_, ?_, ?_, ?_⟩
    · rw [statOf_eq_of_stats (store_in_file_stats ..) a,
        statOf_eq_of_stats (failover_stats ..) a, hS1stat]
    · rw [statOf_eq_of_stats (store_in_file_stats ..) a,
        statOf_eq_of_stats (failover_stats ..) a, hS1stat]
    · intro _
      refine ⟨?_, ?_, ?_⟩
      · rw [store_in_file_active, hfail]
      · rw [store_in_file_fallback, hfail]
      · simp only [store_in_file, hdu, PyScalar.pyStr]
        rw [alookup_aset_self]
        simp only [Option.getD_some]
        rw [trunc_eq_takeLast]
        exact mem_takeLast_append_single (by omega)
    · intro b hb hcand
      obtain ⟨p, hp, _⟩ := hmin b hb hcand
      rw [hscan] at hp
      simp at hp
  · -- a strictly-higher-priority candidate exists: retry once on it
    have hmin := (failoverScan_min (markWriteError s a clk.iso) ca.priority
      s.db_config.databases (none, none)).1
    have hfail : failover_to_next_database (markWriteError s a clk.iso) =
        { markWriteError s a clk.iso with active_db := some b0.name } := by
      simp only [failover_to_next_database, hpoa, markWriteError_config]
      rw [hscan]
    have hb0ne : b0.name ≠ "" := hnames b0 hbm
    have hAF : activeName (failover_to_next_database (markWriteError s a clk.iso)) =
        some b0.name := by
      rw [hfail]
      unfold activeName
      simp [bne_iff_ne.mpr hb0ne]
    have hsf : store_attempt s clk doc =
        (store_in_database (failover_to_next_database (markWriteError s a clk.iso))
          clk b0.name doc).2 := by
      rw [hatt, hAF]
    have hsfa : (store_attempt s clk doc).active_db = some b0.name := by
      rw [hsf, store_in_database_active, hfail]
    have hsff : (store_attempt s clk doc).fallback_to_file = false := by
      rw [hsf, store_in_database_fallback, hfail]
      simp [hfb]
    have hAtt2 : activeName (store_attempt s clk doc) = some b0.name := by
      unfold activeName
      rw [hsfa]
      simp [bne_iff_ne.mpr hb0ne]
    have hsi : store_interaction s clk v msg resp "private" none none =
        store_attempt s clk doc := by
      simp only [store_interaction, hl, hdoc, Bool.not_true]
      rw [if_neg (by simp)]
      rw [if_neg (by simp [hsff, hAtt2])]
    -- the retried backend differs from the failed one
    have hb0a : b0.name ≠ a := by
      intro hEq
      have hbca : b0 = ca :=
        List.inj_on_of_nodup_map hnodup hbm hca (by rw [hEq, hcaname])
      unfold candB at hbcand
      simp only [Bool.and_eq_true] at hbcand
      have hlc := hbcand.1.1
      have hfalse : leCur b0.priority (some ca.priority) = false := by
        cases hx : leCur b0.priority (some ca.priority)
        · rfl
        · rw [hx] at hlc; exact absurd hlc (by simp)
      unfold leCur at hfalse
      have hnle : ¬ (b0.priority ≤ ca.priority) := by simpa using hfalse
      rw [hbca] at hnle
      exact hnle (le_refl _)
    rw [hsi, hsf]
    refine ⟨?_, ?_, ?_, ?_⟩
    · rw [statOf_store_in_database_ne _ _ _ _ _ (Ne.symm hb0a),
        statOf_eq_of_stats (failover_stats ..) a, hS1stat]
    · rw [statOf_store_in_database_ne _ _ _ _ _ (Ne.symm hb0a),
        statOf_eq_of_stats (failover_stats ..) a, hS1stat]
    · intro hall
      have hfalse := hall b0 hbm
      rw [hfalse] at hbcand
      cases hbcand
    · intro b hb hcand
      refine ⟨b0, hbm, hbcand, ?_, ?_, ?_, ?_⟩
      · rw [store_in_database_active, hfail]
      · rw [store_in_database_fallback, hfail]
        simp [hfb]
      · rw [store_in_database_files, failover_files, markWriteError_files]
      · intro c hcm hcand'
        obtain ⟨p, hp, hple⟩ := hmin c hcm hcand'
        rw [hscan] at hp
        have hpb : b0.priority = p := by simpa using hp
        rw [← hpb] at hple
        exact hple

/-- Witness for C7 at a concrete state with an empty active backend. -/
theorem c7_witness :
    get_user_interactions
        (store_interaction w7State clk0 (.pint 7) "m" "r" "private" none none) (.pint 7) 1 =
      [mkInteraction clk0 (.pint 7) "m" "r" "private" none none] :=
  (c7_roundtrip_after_backend_write w7State clk0 (.pint 7) "m" "r" "A" connAOk []
    (by decide) (by decide) (by decide) (by decide) (by decide) (by decide) (by decide)
    (by decide) (by decide)).1

/-- Witness for C4 at the `cex4State` scenario: `B` (priority 2) is
active and fails, `A` (priority 1) is available but skipped; no
strictly-higher-priority candidate exists, so the record goes to the
file fallback. -/
theorem c4_amended_witness :
    (statOf (store_interaction cex4State clk0 (.pint 7) "hello" "hi" "private" none none)
      "B").status = "error" ∧
    (statOf (store_interaction cex4State clk0 (.pint 7) "hello" "hi" "private" none none)
      "B").error_count = (statOf cex4State "B").error_count + 1 ∧
    ((∀ c ∈ cex4State.db_config.databases,
        candB (markWriteError cex4State "B" clk0.iso) cfgB.priority c = false) →
      (store_interaction cex4State clk0 (.pint 7) "hello" "hi" "private" none
        none).active_db = none ∧
      (store_interaction cex4State clk0 (.pint 7) "hello" "hi" "private" none
        none).fallback_to_file = true ∧
      mkInteraction clk0 (.pint 7) "hello" "hi" "private" none none ∈
        (alookup (store_interaction cex4State clk0 (.pint 7) "hello" "hi" "private" none
          none).files (PyScalar.pint 7).pyStr).getD []) ∧
    (∀ b ∈ cex4State.db_config.databases,
      candB (markWriteError cex4State "B" clk0.iso) cfgB.priority b = true →
      ∃ b', b' ∈ cex4State.db_config.databases ∧
        candB (markWriteError cex4State "B" clk0.iso) cfgB.priority b' = true ∧
        (store_interaction cex4State clk0 (.pint 7) "hello" "hi" "private" none
          none).active_db = some b'.name ∧
        (store_interaction cex4State clk0 (.pint 7) "hello" "hi" "private" none
          none).fallback_to_file = false ∧
        (store_interaction cex4State clk0 (.pint 7) "hello" "hi" "private" none
          none).files = cex4State.files ∧
        (∀ c ∈ cex4State.db_config.databases,
          candB (markWriteError cex4State "B" clk0.iso) cfgB.priority c = true →
          b'.priority ≤ c.priority)) :=
  c4_amended_failover_strictly_higher cex4State clk0 (.pint 7) "hello" "hi" "B" connBFail
    cfgB (by decide) (by decide) (by decide) (by decide) (by decide) (by decide)
    (by decide) (by decide) (by decide) (by decide) (by decide)

end IPL
